import Mathlib

/-!
Shallow embedding of the rclone sources under verification:
* `cmd/bisync/rc.go` — the remote-control front end of the bisync engine
  (namespace `BisyncRC`);
* `vfs/vfscommon/options.go` — the VFS option table and its helpers
  (namespace `VFSCommon`).
Collaborator types that live outside the given sources (`fs/rc` params and
errors, the bisync `Options` bundle, the engine itself) are modelled from the
specification, as marked on each definition.
-/

namespace BisyncRC

/-- Modelled from the spec: one value of the loosely-typed parameter map
(`rc.Params`) given to the remote-control front end; the `fs/rc` package is
not part of the sources, so values are restricted to the shapes rc.go reads. -/
inductive RcValue where
  | vBool (b : Bool)
  | vInt (n : Int)
  | vString (s : String)
deriving DecidableEq, Repr

/-- Modelled from the spec: the loosely-typed parameter map `rc.Params`. -/
abbrev RcParams := List (String × RcValue)

/-- Exact-key lookup in the parameter map (Go map indexing). -/
def RcParams.lookup (p : RcParams) (key : String) : Option RcValue :=
  List.lookup key p

/-- Modelled from the spec: errors produced at the RPC boundary.
`paramNotFound` models `rc.ErrParamNotFound`, `paramInvalid` models
`rc.ErrParamInvalid`, `fsResolveError` a failure to resolve a location to a
backend handle, `configError` any other option error. -/
inductive RcError where
  | paramNotFound (key : String)
  | paramInvalid (msg : String)
  | fsResolveError (msg : String)
  | configError (msg : String)
deriving DecidableEq, Repr

/-- Modelled from the spec: `rc.Params.GetBool`; Go-style result pair whose
first component is the zero value when the getter fails. -/
def RcParams.GetBool (p : RcParams) (key : String) : Bool × Option RcError :=
  match p.lookup key with
  | none => (false, some (.paramNotFound key))
  | some (.vBool b) => (b, none)
  | some _ => (false, some (.paramInvalid ("expecting bool value for key " ++ key)))

/-- Modelled from the spec: `rc.Params.GetInt64`. -/
def RcParams.GetInt64 (p : RcParams) (key : String) : Int × Option RcError :=
  match p.lookup key with
  | none => (0, some (.paramNotFound key))
  | some (.vInt n) => (n, none)
  | some _ => (0, some (.paramInvalid ("expecting int64 value for key " ++ key)))

/-- Modelled from the spec: `rc.Params.GetString`. -/
def RcParams.GetString (p : RcParams) (key : String) : String × Option RcError :=
  match p.lookup key with
  | none => ("", some (.paramNotFound key))
  | some (.vString s) => (s, none)
  | some _ => ("", some (.paramInvalid ("expecting string value for key " ++ key)))

/-- Whether an `RcError` is the param-not-found error. -/
def RcError.isParamNotFound : RcError → Bool
  | .paramNotFound _ => true
  | _ => false

/-- Modelled from the spec: `rc.NotErrParamNotFound err` — err is non-nil and
is not the param-not-found error. -/
def NotErrParamNotFound : Option RcError → Bool
  | none => false
  | some e => !e.isParamNotFound

/-- Modelled from the spec: the `Prefer` resolution policy
(none|path1|path2|newer|older|larger|smaller); the type itself lives outside
the given sources. -/
inductive Prefer where
  | PreferNone
  | PreferPath1
  | PreferPath2
  | PreferNewer
  | PreferOlder
  | PreferLarger
  | PreferSmaller
deriving DecidableEq, Repr

/-- Modelled from the spec: the `checkSync` post-run listing-consistency
verification mode (default on). -/
inductive CheckSyncMode where
  | CheckSyncTrue
  | CheckSyncFalse
  | CheckSyncOnly
deriving DecidableEq, Repr

/-- Modelled from the spec: `CheckSyncMode.Set` accepts the documented
spellings true, false and only, and rejects anything else. -/
def CheckSyncMode.Set (s : String) : Except RcError CheckSyncMode :=
  match s with
  | "true" => .ok .CheckSyncTrue
  | "false" => .ok .CheckSyncFalse
  | "only" => .ok .CheckSyncOnly
  | _ => .error (.configError ("unknown check-sync mode \"" ++ s ++ "\""))

/-- Modelled from the spec: the typed option bundle (`bisync.Options`) that
the RPC front end fills in; only the fields rc.go assigns are modelled, with
Go zero values as defaults. -/
structure Options where
  DryRun : Bool := false
  MaxDelete : Int := 0
  Resync : Bool := false
  ResyncMode : Prefer := .PreferNone
  CheckAccess : Bool := false
  Force : Bool := false
  CreateEmptySrcDirs : Bool := false
  RemoveEmptyDirs : Bool := false
  NoCleanup : Bool := false
  IgnoreListingChecksum : Bool := false
  Resilient : Bool := false
  Recover : Bool := false
  CheckFilename : String := ""
  FiltersFile : String := ""
  Workdir : String := ""
  BackupDir1 : String := ""
  BackupDir2 : String := ""
  ConflictResolve : Prefer := .PreferNone
  ConflictSuffixFlag : String := ""
  CheckSync : CheckSyncMode := .CheckSyncTrue
deriving DecidableEq, Repr

/-- Modelled from the spec: the request-scoped filesystem configuration that
`fs.AddConfig` copies into the context; rc.go only touches its DryRun flag. -/
structure ConfigInfo where
  DryRun : Bool := false
deriving DecidableEq, Repr

/-- Function `GetPrefer` from cmd/bisync/rc.go: read the string under `key` and map the
seven accepted spellings to `Prefer` values; any other string fails with an
invalid-parameter error naming the value and the key. -/
def GetPrefer (key : String) (p : RcParams) : Prefer × Option RcError :=
  match p.GetString key with
  | (_, some e) => (.PreferNone, some e)
  | (str, none) =>
    match str with
    | "none" => (.PreferNone, none)
    | "path1" => (.PreferPath1, none)
    | "path2" => (.PreferPath2, none)
    | "newer" => (.PreferNewer, none)
    | "older" => (.PreferOlder, none)
    | "larger" => (.PreferLarger, none)
    | "smaller" => (.PreferSmaller, none)
    | _ => (.PreferNone, some (.paramInvalid
        ("invalid prefer value \"" ++ str ++ "\" for key \"" ++ key ++ "\"")))

/-- One `if opt.X, err = in.GetY(key); rc.NotErrParamNotFound(err) { return }`
block of rcBisync: the field is assigned the value the getter returned (the Go
zero value when it failed), and any error other than param-not-found aborts,
carrying the partially filled bundle with it. -/
def stepAssign {α : Type} (opt : Options) (x : α × Option RcError)
    (set : Options → α → Options) : Except (RcError × Options) Options :=
  let opt := set opt x.1
  match x.2 with
  | none => .ok opt
  | some e => if e.isParamNotFound then .ok opt else .error (e, opt)

/-- The `opt.CheckSync.Set(checkSync)` call of rc.go lines 131–133: a failure
aborts (Go returns nil and the error), success stores the parsed mode. -/
def setCheckSync (opt : Options) (s : String) : Except (RcError × Options) Options :=
  match CheckSyncMode.Set s with
  | .error e => .error (e, opt)
  | .ok m => .ok { opt with CheckSync := m }

/-- Lines 72–133 of cmd/bisync/rc.go: the uniform option blocks from `resync`
to `conflictsuffix`, followed by the `checkSync` block (an absent or empty
checkSync parameter is replaced by the string true before the Set call). -/
def decodeMiddle (p : RcParams) (opt0 : Options) : Except (RcError × Options) Options := do
  let opt ← stepAssign opt0 (p.GetBool "resync") (fun o v => { o with Resync := v })
  let opt ← stepAssign opt (GetPrefer "resyncmode" p) (fun o v => { o with ResyncMode := v })
  let opt ← stepAssign opt (p.GetBool "checkAccess") (fun o v => { o with CheckAccess := v })
  let opt ← stepAssign opt (p.GetBool "force") (fun o v => { o with Force := v })
  let opt ← stepAssign opt (p.GetBool "createEmptySrcDirs") (fun o v => { o with CreateEmptySrcDirs := v })
  let opt ← stepAssign opt (p.GetBool "removeEmptyDirs") (fun o v => { o with RemoveEmptyDirs := v })
  let opt ← stepAssign opt (p.GetBool "noCleanup") (fun o v => { o with NoCleanup := v })
  let opt ← stepAssign opt (p.GetBool "ignoreListingChecksum") (fun o v => { o with IgnoreListingChecksum := v })
  let opt ← stepAssign opt (p.GetBool "resilient") (fun o v => { o with Resilient := v })
  let opt ← stepAssign opt (p.GetBool "recover") (fun o v => { o with Recover := v })
  let opt ← stepAssign opt (p.GetString "checkFilename") (fun o v => { o with CheckFilename := v })
  let opt ← stepAssign opt (p.GetString "filtersFile") (fun o v => { o with FiltersFile := v })
  let opt ← stepAssign opt (p.GetString "workdir") (fun o v => { o with Workdir := v })
  let opt ← stepAssign opt (p.GetString "backupdir1") (fun o v => { o with BackupDir1 := v })
  let opt ← stepAssign opt (p.GetString "backupdir2") (fun o v => { o with BackupDir2 := v })
  let opt ← stepAssign opt (GetPrefer "conflictresolve" p) (fun o v => { o with ConflictResolve := v })
  let opt ← stepAssign opt (p.GetString "conflictsuffix") (fun o v => { o with ConflictSuffixFlag := v })
  match p.GetString "checkSync" with
  | (_, some e) =>
      if e.isParamNotFound then setCheckSync opt "true"
      else .error (e, opt)
  | (cs, none) => setCheckSync opt (if cs = "" then "true" else cs)

/-- Lines 56–61 of cmd/bisync/rc.go: the `dryRun` block, which writes both the
request-scoped configuration and the option bundle when the parameter decodes
as a bool, leaves both alone when it is absent, and aborts otherwise. -/
def decodeDryRun (ci : ConfigInfo) (opt : Options) (p : RcParams) :
    Except (RcError × ConfigInfo × Options) (ConfigInfo × Options) :=
  match p.GetBool "dryRun" with
  | (dryRun, none) => .ok ({ ci with DryRun := dryRun }, { opt with DryRun := dryRun })
  | (_, some e) => if e.isParamNotFound then .ok (ci, opt) else .error (e, ci, opt)

/-- Lines 63–70 of cmd/bisync/rc.go: the `maxDelete` block with its 0–100
range check. -/
def decodeMaxDelete (opt : Options) (p : RcParams) : Except RcError Options :=
  match p.GetInt64 "maxDelete" with
  | (maxDelete, none) =>
      if maxDelete < 0 ∨ maxDelete > 100 then
        .error (.paramInvalid "maxDelete must be a percentage between 0 and 100")
      else .ok { opt with MaxDelete := maxDelete }
  | (_, some e) => if e.isParamNotFound then .ok opt else .error e

/-- Lines 53–133 of cmd/bisync/rc.go: the whole parameter-decoding prefix of
rcBisync, run before the two locations are resolved. A failure carries the
state reached so far (Go returns nil for the result map there; the state is
kept so that theorems can speak about the partially filled bundle). -/
def decodeParams (ci0 : ConfigInfo) (p : RcParams) :
    Except (RcError × ConfigInfo × Options) (ConfigInfo × Options) :=
  match decodeDryRun ci0 {} p with
  | .error r => .error r
  | .ok (ci, opt) =>
    match decodeMaxDelete opt p with
    | .error e => .error (e, ci, opt)
    | .ok opt =>
      match decodeMiddle p opt with
      | .error (e, opt) => .error (e, ci, opt)
      | .ok opt => .ok (ci, opt)

/-- Modelled from the spec: `rc.GetFsNamed` resolves the location string under
`key` to a concrete backend handle (external collaborator responsibility);
`env` stands for the backend environment and handles are plain strings. -/
def GetFsNamed (env : String → Option String) (p : RcParams) (key : String) :
    Except RcError String :=
  match p.lookup key with
  | none => .error (.paramNotFound key)
  | some (.vString s) =>
    match env s with
    | some f => .ok f
    | none => .error (.fsResolveError ("cannot resolve location " ++ s))
  | some _ => .error (.paramInvalid ("expecting string value for key " ++ key))

/-- Observable calls rcBisync makes to its collaborators, in order. -/
inductive RcEvent where
  | resolveFs (key : String)
  | runBisync
deriving DecidableEq, Repr

/-- The observable outcome of rcBisync: the result map and the error it
returns, the final request-scoped configuration and option bundle, and the
trace of collaborator calls it made. -/
structure RcResult where
  out : Option (List (String × String))
  err : Option RcError
  ci : ConfigInfo
  opt : Options
  events : List RcEvent
deriving DecidableEq, Repr

/-- rcBisync from cmd/bisync/rc.go: decode the parameters, resolve path1 and
path2, run Bisync under output capture, and return the captured output next to
Bisync's error. `bi` stands for the Bisync engine wrapped in
`bilib.CaptureOutput`: it yields the captured text and the run error. -/
def rcBisync (env : String → Option String)
    (bi : String → String → Options → String × Option RcError)
    (ci0 : ConfigInfo) (p : RcParams) : RcResult :=
  match decodeParams ci0 p with
  | .error (e, ci, opt) => ⟨none, some e, ci, opt, []⟩
  | .ok (ci, opt) =>
    match GetFsNamed env p "path1" with
    | .error e => ⟨none, some e, ci, opt, [.resolveFs "path1"]⟩
    | .ok fs1 =>
      match GetFsNamed env p "path2" with
      | .error e => ⟨none, some e, ci, opt, [.resolveFs "path1", .resolveFs "path2"]⟩
      | .ok fs2 =>
        let r := bi fs1 fs2 opt
        ⟨some [("output", r.1)], r.2, ci, opt,
          [.resolveFs "path1", .resolveFs "path2", .runBisync]⟩


def middleState : Except (RcError × Options) Options → Options
  | .ok o => o
  | .error (_, o) => o

@[simp] theorem middleState_ok (o : Options) : middleState (.ok o) = o := rfl

@[simp] theorem middleState_error (e : RcError) (o : Options) :
    middleState (.error (e, o)) = o := rfl

theorem bind_ok_elim {ε α β : Type} {x : Except ε α} {f : α → Except ε β} {r : β}
    (h : (x >>= f) = .ok r) : ∃ a, x = .ok a ∧ f a = .ok r := by
  cases x with
  | error e => simp [Bind.bind, Except.bind] at h
  | ok a => exact ⟨a, rfl, h⟩

theorem stepAssign_ok {α : Type} {opt : Options} {x : α × Option RcError}
    {set : Options → α → Options} {o : Options}
    (h : stepAssign opt x set = .ok o) : o = set opt x.1 := by
  rcases x with ⟨v, e⟩
  cases e with
  | none =>
    simp [stepAssign] at h
    exact h.symm
  | some e =>
    by_cases hn : e.isParamNotFound <;> simp [stepAssign, hn] at h
    exact h.symm

theorem setCheckSync_ok {opt : Options} {s : String} {opt' : Options}
    (h : setCheckSync opt s = .ok opt') :
    ∃ m, CheckSyncMode.Set s = .ok m ∧ opt' = { opt with CheckSync := m } := by
  unfold setCheckSync at h
  split at h
  · simp at h
  · rename_i m heq
    simp only [Except.ok.injEq] at h
    exact ⟨m, heq, h.symm⟩

/-- The string rc.go hands to `opt.CheckSync.Set` whenever that call is
reached: the decoded value, with absence and the empty string replaced by
true. -/
def effectiveCheckSync (p : RcParams) : String :=
  match p.GetString "checkSync" with
  | (_, some _) => "true"
  | (cs, none) => if cs = "" then "true" else cs

theorem decodeMiddle_ok_chain (p : RcParams)
    (opt0 o1 o2 o3 o4 o5 o6 o7 o8 o9 o10 o11 o12 o13 o14 o15 o16 o17 opt' : Options) (m : CheckSyncMode)
    (e1 : o1 = { opt0 with Resync := (p.GetBool "resync").1 })
    (e2 : o2 = { o1 with ResyncMode := (GetPrefer "resyncmode" p).1 })
    (e3 : o3 = { o2 with CheckAccess := (p.GetBool "checkAccess").1 })
    (e4 : o4 = { o3 with Force := (p.GetBool "force").1 })
    (e5 : o5 = { o4 with CreateEmptySrcDirs := (p.GetBool "createEmptySrcDirs").1 })
    (e6 : o6 = { o5 with RemoveEmptyDirs := (p.GetBool "removeEmptyDirs").1 })
    (e7 : o7 = { o6 with NoCleanup := (p.GetBool "noCleanup").1 })
    (e8 : o8 = { o7 with IgnoreListingChecksum := (p.GetBool "ignoreListingChecksum").1 })
    (e9 : o9 = { o8 with Resilient := (p.GetBool "resilient").1 })
    (e10 : o10 = { o9 with Recover := (p.GetBool "recover").1 })
    (e11 : o11 = { o10 with CheckFilename := (p.GetString "checkFilename").1 })
    (e12 : o12 = { o11 with FiltersFile := (p.GetString "filtersFile").1 })
    (e13 : o13 = { o12 with Workdir := (p.GetString "workdir").1 })
    (e14 : o14 = { o13 with BackupDir1 := (p.GetString "backupdir1").1 })
    (e15 : o15 = { o14 with BackupDir2 := (p.GetString "backupdir2").1 })
    (e16 : o16 = { o15 with ConflictResolve := (GetPrefer "conflictresolve" p).1 })
    (e17 : o17 = { o16 with ConflictSuffixFlag := (p.GetString "conflictsuffix").1 })
    (e18 : opt' = { o17 with CheckSync := m })
    (hset : CheckSyncMode.Set (effectiveCheckSync p) = .ok m) :
    opt'.DryRun = opt0.DryRun ∧ opt'.MaxDelete = opt0.MaxDelete ∧
    opt'.Resync = (p.GetBool "resync").1 ∧
    opt'.ResyncMode = (GetPrefer "resyncmode" p).1 ∧
    opt'.CheckAccess = (p.GetBool "checkAccess").1 ∧
    opt'.Force = (p.GetBool "force").1 ∧
    opt'.CreateEmptySrcDirs = (p.GetBool "createEmptySrcDirs").1 ∧
    opt'.RemoveEmptyDirs = (p.GetBool "removeEmptyDirs").1 ∧
    opt'.NoCleanup = (p.GetBool "noCleanup").1 ∧
    opt'.IgnoreListingChecksum = (p.GetBool "ignoreListingChecksum").1 ∧
    opt'.Resilient = (p.GetBool "resilient").1 ∧
    opt'.Recover = (p.GetBool "recover").1 ∧
    opt'.CheckFilename = (p.GetString "checkFilename").1 ∧
    opt'.FiltersFile = (p.GetString "filtersFile").1 ∧
    opt'.Workdir = (p.GetString "workdir").1 ∧
    opt'.BackupDir1 = (p.GetString "backupdir1").1 ∧
    opt'.BackupDir2 = (p.GetString "backupdir2").1 ∧
    opt'.ConflictResolve = (GetPrefer "conflictresolve" p).1 ∧
    opt'.ConflictSuffixFlag = (p.GetString "conflictsuffix").1 ∧
    CheckSyncMode.Set (effectiveCheckSync p) = .ok opt'.CheckSync := by
  have hDryRun_1 : o1.DryRun = opt0.DryRun := by simp [e1]
  have hDryRun_2 : o2.DryRun = opt0.DryRun := by simp [e2, hDryRun_1]
  have hDryRun_3 : o3.DryRun = opt0.DryRun := by simp [e3, hDryRun_2]
  have hDryRun_4 : o4.DryRun = opt0.DryRun := by simp [e4, hDryRun_3]
  have hDryRun_5 : o5.DryRun = opt0.DryRun := by simp [e5, hDryRun_4]
  have hDryRun_6 : o6.DryRun = opt0.DryRun := by simp [e6, hDryRun_5]
  have hDryRun_7 : o7.DryRun = opt0.DryRun := by simp [e7, hDryRun_6]
  have hDryRun_8 : o8.DryRun = opt0.DryRun := by simp [e8, hDryRun_7]
  have hDryRun_9 : o9.DryRun = opt0.DryRun := by simp [e9, hDryRun_8]
  have hDryRun_10 : o10.DryRun = opt0.DryRun := by simp [e10, hDryRun_9]
  have hDryRun_11 : o11.DryRun = opt0.DryRun := by simp [e11, hDryRun_10]
  have hDryRun_12 : o12.DryRun = opt0.DryRun := by simp [e12, hDryRun_11]
  have hDryRun_13 : o13.DryRun = opt0.DryRun := by simp [e13, hDryRun_12]
  have hDryRun_14 : o14.DryRun = opt0.DryRun := by simp [e14, hDryRun_13]
  have hDryRun_15 : o15.DryRun = opt0.DryRun := by simp [e15, hDryRun_14]
  have hDryRun_16 : o16.DryRun = opt0.DryRun := by simp [e16, hDryRun_15]
  have hDryRun_17 : o17.DryRun = opt0.DryRun := by simp [e17, hDryRun_16]
  have hMaxDelete_1 : o1.MaxDelete = opt0.MaxDelete := by simp [e1]
  have hMaxDelete_2 : o2.MaxDelete = opt0.MaxDelete := by simp [e2, hMaxDelete_1]
  have hMaxDelete_3 : o3.MaxDelete = opt0.MaxDelete := by simp [e3, hMaxDelete_2]
  have hMaxDelete_4 : o4.MaxDelete = opt0.MaxDelete := by simp [e4, hMaxDelete_3]
  have hMaxDelete_5 : o5.MaxDelete = opt0.MaxDelete := by simp [e5, hMaxDelete_4]
  have hMaxDelete_6 : o6.MaxDelete = opt0.MaxDelete := by simp [e6, hMaxDelete_5]
  have hMaxDelete_7 : o7.MaxDelete = opt0.MaxDelete := by simp [e7, hMaxDelete_6]
  have hMaxDelete_8 : o8.MaxDelete = opt0.MaxDelete := by simp [e8, hMaxDelete_7]
  have hMaxDelete_9 : o9.MaxDelete = opt0.MaxDelete := by simp [e9, hMaxDelete_8]
  have hMaxDelete_10 : o10.MaxDelete = opt0.MaxDelete := by simp [e10, hMaxDelete_9]
  have hMaxDelete_11 : o11.MaxDelete = opt0.MaxDelete := by simp [e11, hMaxDelete_10]
  have hMaxDelete_12 : o12.MaxDelete = opt0.MaxDelete := by simp [e12, hMaxDelete_11]
  have hMaxDelete_13 : o13.MaxDelete = opt0.MaxDelete := by simp [e13, hMaxDelete_12]
  have hMaxDelete_14 : o14.MaxDelete = opt0.MaxDelete := by simp [e14, hMaxDelete_13]
  have hMaxDelete_15 : o15.MaxDelete = opt0.MaxDelete := by simp [e15, hMaxDelete_14]
  have hMaxDelete_16 : o16.MaxDelete = opt0.MaxDelete := by simp [e16, hMaxDelete_15]
  have hMaxDelete_17 : o17.MaxDelete = opt0.MaxDelete := by simp [e17, hMaxDelete_16]
  have hResync_1 : o1.Resync = (p.GetBool "resync").1 := by simp [e1]
  have hResync_2 : o2.Resync = (p.GetBool "resync").1 := by simp [e2, hResync_1]
  have hResync_3 : o3.Resync = (p.GetBool "resync").1 := by simp [e3, hResync_2]
  have hResync_4 : o4.Resync = (p.GetBool "resync").1 := by simp [e4, hResync_3]
  have hResync_5 : o5.Resync = (p.GetBool "resync").1 := by simp [e5, hResync_4]
  have hResync_6 : o6.Resync = (p.GetBool "resync").1 := by simp [e6, hResync_5]
  have hResync_7 : o7.Resync = (p.GetBool "resync").1 := by simp [e7, hResync_6]
  have hResync_8 : o8.Resync = (p.GetBool "resync").1 := by simp [e8, hResync_7]
  have hResync_9 : o9.Resync = (p.GetBool "resync").1 := by simp [e9, hResync_8]
  have hResync_10 : o10.Resync = (p.GetBool "resync").1 := by simp [e10, hResync_9]
  have hResync_11 : o11.Resync = (p.GetBool "resync").1 := by simp [e11, hResync_10]
  have hResync_12 : o12.Resync = (p.GetBool "resync").1 := by simp [e12, hResync_11]
  have hResync_13 : o13.Resync = (p.GetBool "resync").1 := by simp [e13, hResync_12]
  have hResync_14 : o14.Resync = (p.GetBool "resync").1 := by simp [e14, hResync_13]
  have hResync_15 : o15.Resync = (p.GetBool "resync").1 := by simp [e15, hResync_14]
  have hResync_16 : o16.Resync = (p.GetBool "resync").1 := by simp [e16, hResync_15]
  have hResync_17 : o17.Resync = (p.GetBool "resync").1 := by simp [e17, hResync_16]
  have hResyncMode_2 : o2.ResyncMode = (GetPrefer "resyncmode" p).1 := by simp [e2]
  have hResyncMode_3 : o3.ResyncMode = (GetPrefer "resyncmode" p).1 := by simp [e3, hResyncMode_2]
  have hResyncMode_4 : o4.ResyncMode = (GetPrefer "resyncmode" p).1 := by simp [e4, hResyncMode_3]
  have hResyncMode_5 : o5.ResyncMode = (GetPrefer "resyncmode" p).1 := by simp [e5, hResyncMode_4]
  have hResyncMode_6 : o6.ResyncMode = (GetPrefer "resyncmode" p).1 := by simp [e6, hResyncMode_5]
  have hResyncMode_7 : o7.ResyncMode = (GetPrefer "resyncmode" p).1 := by simp [e7, hResyncMode_6]
  have hResyncMode_8 : o8.ResyncMode = (GetPrefer "resyncmode" p).1 := by simp [e8, hResyncMode_7]
  have hResyncMode_9 : o9.ResyncMode = (GetPrefer "resyncmode" p).1 := by simp [e9, hResyncMode_8]
  have hResyncMode_10 : o10.ResyncMode = (GetPrefer "resyncmode" p).1 := by simp [e10, hResyncMode_9]
  have hResyncMode_11 : o11.ResyncMode = (GetPrefer "resyncmode" p).1 := by simp [e11, hResyncMode_10]
  have hResyncMode_12 : o12.ResyncMode = (GetPrefer "resyncmode" p).1 := by simp [e12, hResyncMode_11]
  have hResyncMode_13 : o13.ResyncMode = (GetPrefer "resyncmode" p).1 := by simp [e13, hResyncMode_12]
  have hResyncMode_14 : o14.ResyncMode = (GetPrefer "resyncmode" p).1 := by simp [e14, hResyncMode_13]
  have hResyncMode_15 : o15.ResyncMode = (GetPrefer "resyncmode" p).1 := by simp [e15, hResyncMode_14]
  have hResyncMode_16 : o16.ResyncMode = (GetPrefer "resyncmode" p).1 := by simp [e16, hResyncMode_15]
  have hResyncMode_17 : o17.ResyncMode = (GetPrefer "resyncmode" p).1 := by simp [e17, hResyncMode_16]
  have hCheckAccess_3 : o3.CheckAccess = (p.GetBool "checkAccess").1 := by simp [e3]
  have hCheckAccess_4 : o4.CheckAccess = (p.GetBool "checkAccess").1 := by simp [e4, hCheckAccess_3]
  have hCheckAccess_5 : o5.CheckAccess = (p.GetBool "checkAccess").1 := by simp [e5, hCheckAccess_4]
  have hCheckAccess_6 : o6.CheckAccess = (p.GetBool "checkAccess").1 := by simp [e6, hCheckAccess_5]
  have hCheckAccess_7 : o7.CheckAccess = (p.GetBool "checkAccess").1 := by simp [e7, hCheckAccess_6]
  have hCheckAccess_8 : o8.CheckAccess = (p.GetBool "checkAccess").1 := by simp [e8, hCheckAccess_7]
  have hCheckAccess_9 : o9.CheckAccess = (p.GetBool "checkAccess").1 := by simp [e9, hCheckAccess_8]
  have hCheckAccess_10 : o10.CheckAccess = (p.GetBool "checkAccess").1 := by simp [e10, hCheckAccess_9]
  have hCheckAccess_11 : o11.CheckAccess = (p.GetBool "checkAccess").1 := by simp [e11, hCheckAccess_10]
  have hCheckAccess_12 : o12.CheckAccess = (p.GetBool "checkAccess").1 := by simp [e12, hCheckAccess_11]
  have hCheckAccess_13 : o13.CheckAccess = (p.GetBool "checkAccess").1 := by simp [e13, hCheckAccess_12]
  have hCheckAccess_14 : o14.CheckAccess = (p.GetBool "checkAccess").1 := by simp [e14, hCheckAccess_13]
  have hCheckAccess_15 : o15.CheckAccess = (p.GetBool "checkAccess").1 := by simp [e15, hCheckAccess_14]
  have hCheckAccess_16 : o16.CheckAccess = (p.GetBool "checkAccess").1 := by simp [e16, hCheckAccess_15]
  have hCheckAccess_17 : o17.CheckAccess = (p.GetBool "checkAccess").1 := by simp [e17, hCheckAccess_16]
  have hForce_4 : o4.Force = (p.GetBool "force").1 := by simp [e4]
  have hForce_5 : o5.Force = (p.GetBool "force").1 := by simp [e5, hForce_4]
  have hForce_6 : o6.Force = (p.GetBool "force").1 := by simp [e6, hForce_5]
  have hForce_7 : o7.Force = (p.GetBool "force").1 := by simp [e7, hForce_6]
  have hForce_8 : o8.Force = (p.GetBool "force").1 := by simp [e8, hForce_7]
  have hForce_9 : o9.Force = (p.GetBool "force").1 := by simp [e9, hForce_8]
  have hForce_10 : o10.Force = (p.GetBool "force").1 := by simp [e10, hForce_9]
  have hForce_11 : o11.Force = (p.GetBool "force").1 := by simp [e11, hForce_10]
  have hForce_12 : o12.Force = (p.GetBool "force").1 := by simp [e12, hForce_11]
  have hForce_13 : o13.Force = (p.GetBool "force").1 := by simp [e13, hForce_12]
  have hForce_14 : o14.Force = (p.GetBool "force").1 := by simp [e14, hForce_13]
  have hForce_15 : o15.Force = (p.GetBool "force").1 := by simp [e15, hForce_14]
  have hForce_16 : o16.Force = (p.GetBool "force").1 := by simp [e16, hForce_15]
  have hForce_17 : o17.Force = (p.GetBool "force").1 := by simp [e17, hForce_16]
  have hCreateEmptySrcDirs_5 : o5.CreateEmptySrcDirs = (p.GetBool "createEmptySrcDirs").1 := by simp [e5]
  have hCreateEmptySrcDirs_6 : o6.CreateEmptySrcDirs = (p.GetBool "createEmptySrcDirs").1 := by simp [e6, hCreateEmptySrcDirs_5]
  have hCreateEmptySrcDirs_7 : o7.CreateEmptySrcDirs = (p.GetBool "createEmptySrcDirs").1 := by simp [e7, hCreateEmptySrcDirs_6]
  have hCreateEmptySrcDirs_8 : o8.CreateEmptySrcDirs = (p.GetBool "createEmptySrcDirs").1 := by simp [e8, hCreateEmptySrcDirs_7]
  have hCreateEmptySrcDirs_9 : o9.CreateEmptySrcDirs = (p.GetBool "createEmptySrcDirs").1 := by simp [e9, hCreateEmptySrcDirs_8]
  have hCreateEmptySrcDirs_10 : o10.CreateEmptySrcDirs = (p.GetBool "createEmptySrcDirs").1 := by simp [e10, hCreateEmptySrcDirs_9]
  have hCreateEmptySrcDirs_11 : o11.CreateEmptySrcDirs = (p.GetBool "createEmptySrcDirs").1 := by simp [e11, hCreateEmptySrcDirs_10]
  have hCreateEmptySrcDirs_12 : o12.CreateEmptySrcDirs = (p.GetBool "createEmptySrcDirs").1 := by simp [e12, hCreateEmptySrcDirs_11]
  have hCreateEmptySrcDirs_13 : o13.CreateEmptySrcDirs = (p.GetBool "createEmptySrcDirs").1 := by simp [e13, hCreateEmptySrcDirs_12]
  have hCreateEmptySrcDirs_14 : o14.CreateEmptySrcDirs = (p.GetBool "createEmptySrcDirs").1 := by simp [e14, hCreateEmptySrcDirs_13]
  have hCreateEmptySrcDirs_15 : o15.CreateEmptySrcDirs = (p.GetBool "createEmptySrcDirs").1 := by simp [e15, hCreateEmptySrcDirs_14]
  have hCreateEmptySrcDirs_16 : o16.CreateEmptySrcDirs = (p.GetBool "createEmptySrcDirs").1 := by simp [e16, hCreateEmptySrcDirs_15]
  have hCreateEmptySrcDirs_17 : o17.CreateEmptySrcDirs = (p.GetBool "createEmptySrcDirs").1 := by simp [e17, hCreateEmptySrcDirs_16]
  have hRemoveEmptyDirs_6 : o6.RemoveEmptyDirs = (p.GetBool "removeEmptyDirs").1 := by simp [e6]
  have hRemoveEmptyDirs_7 : o7.RemoveEmptyDirs = (p.GetBool "removeEmptyDirs").1 := by simp [e7, hRemoveEmptyDirs_6]
  have hRemoveEmptyDirs_8 : o8.RemoveEmptyDirs = (p.GetBool "removeEmptyDirs").1 := by simp [e8, hRemoveEmptyDirs_7]
  have hRemoveEmptyDirs_9 : o9.RemoveEmptyDirs = (p.GetBool "removeEmptyDirs").1 := by simp [e9, hRemoveEmptyDirs_8]
  have hRemoveEmptyDirs_10 : o10.RemoveEmptyDirs = (p.GetBool "removeEmptyDirs").1 := by simp [e10, hRemoveEmptyDirs_9]
  have hRemoveEmptyDirs_11 : o11.RemoveEmptyDirs = (p.GetBool "removeEmptyDirs").1 := by simp [e11, hRemoveEmptyDirs_10]
  have hRemoveEmptyDirs_12 : o12.RemoveEmptyDirs = (p.GetBool "removeEmptyDirs").1 := by simp [e12, hRemoveEmptyDirs_11]
  have hRemoveEmptyDirs_13 : o13.RemoveEmptyDirs = (p.GetBool "removeEmptyDirs").1 := by simp [e13, hRemoveEmptyDirs_12]
  have hRemoveEmptyDirs_14 : o14.RemoveEmptyDirs = (p.GetBool "removeEmptyDirs").1 := by simp [e14, hRemoveEmptyDirs_13]
  have hRemoveEmptyDirs_15 : o15.RemoveEmptyDirs = (p.GetBool "removeEmptyDirs").1 := by simp [e15, hRemoveEmptyDirs_14]
  have hRemoveEmptyDirs_16 : o16.RemoveEmptyDirs = (p.GetBool "removeEmptyDirs").1 := by simp [e16, hRemoveEmptyDirs_15]
  have hRemoveEmptyDirs_17 : o17.RemoveEmptyDirs = (p.GetBool "removeEmptyDirs").1 := by simp [e17, hRemoveEmptyDirs_16]
  have hNoCleanup_7 : o7.NoCleanup = (p.GetBool "noCleanup").1 := by simp [e7]
  have hNoCleanup_8 : o8.NoCleanup = (p.GetBool "noCleanup").1 := by simp [e8, hNoCleanup_7]
  have hNoCleanup_9 : o9.NoCleanup = (p.GetBool "noCleanup").1 := by simp [e9, hNoCleanup_8]
  have hNoCleanup_10 : o10.NoCleanup = (p.GetBool "noCleanup").1 := by simp [e10, hNoCleanup_9]
  have hNoCleanup_11 : o11.NoCleanup = (p.GetBool "noCleanup").1 := by simp [e11, hNoCleanup_10]
  have hNoCleanup_12 : o12.NoCleanup = (p.GetBool "noCleanup").1 := by simp [e12, hNoCleanup_11]
  have hNoCleanup_13 : o13.NoCleanup = (p.GetBool "noCleanup").1 := by simp [e13, hNoCleanup_12]
  have hNoCleanup_14 : o14.NoCleanup = (p.GetBool "noCleanup").1 := by simp [e14, hNoCleanup_13]
  have hNoCleanup_15 : o15.NoCleanup = (p.GetBool "noCleanup").1 := by simp [e15, hNoCleanup_14]
  have hNoCleanup_16 : o16.NoCleanup = (p.GetBool "noCleanup").1 := by simp [e16, hNoCleanup_15]
  have hNoCleanup_17 : o17.NoCleanup = (p.GetBool "noCleanup").1 := by simp [e17, hNoCleanup_16]
  have hIgnoreListingChecksum_8 : o8.IgnoreListingChecksum = (p.GetBool "ignoreListingChecksum").1 := by simp [e8]
  have hIgnoreListingChecksum_9 : o9.IgnoreListingChecksum = (p.GetBool "ignoreListingChecksum").1 := by simp [e9, hIgnoreListingChecksum_8]
  have hIgnoreListingChecksum_10 : o10.IgnoreListingChecksum = (p.GetBool "ignoreListingChecksum").1 := by simp [e10, hIgnoreListingChecksum_9]
  have hIgnoreListingChecksum_11 : o11.IgnoreListingChecksum = (p.GetBool "ignoreListingChecksum").1 := by simp [e11, hIgnoreListingChecksum_10]
  have hIgnoreListingChecksum_12 : o12.IgnoreListingChecksum = (p.GetBool "ignoreListingChecksum").1 := by simp [e12, hIgnoreListingChecksum_11]
  have hIgnoreListingChecksum_13 : o13.IgnoreListingChecksum = (p.GetBool "ignoreListingChecksum").1 := by simp [e13, hIgnoreListingChecksum_12]
  have hIgnoreListingChecksum_14 : o14.IgnoreListingChecksum = (p.GetBool "ignoreListingChecksum").1 := by simp [e14, hIgnoreListingChecksum_13]
  have hIgnoreListingChecksum_15 : o15.IgnoreListingChecksum = (p.GetBool "ignoreListingChecksum").1 := by simp [e15, hIgnoreListingChecksum_14]
  have hIgnoreListingChecksum_16 : o16.IgnoreListingChecksum = (p.GetBool "ignoreListingChecksum").1 := by simp [e16, hIgnoreListingChecksum_15]
  have hIgnoreListingChecksum_17 : o17.IgnoreListingChecksum = (p.GetBool "ignoreListingChecksum").1 := by simp [e17, hIgnoreListingChecksum_16]
  have hResilient_9 : o9.Resilient = (p.GetBool "resilient").1 := by simp [e9]
  have hResilient_10 : o10.Resilient = (p.GetBool "resilient").1 := by simp [e10, hResilient_9]
  have hResilient_11 : o11.Resilient = (p.GetBool "resilient").1 := by simp [e11, hResilient_10]
  have hResilient_12 : o12.Resilient = (p.GetBool "resilient").1 := by simp [e12, hResilient_11]
  have hResilient_13 : o13.Resilient = (p.GetBool "resilient").1 := by simp [e13, hResilient_12]
  have hResilient_14 : o14.Resilient = (p.GetBool "resilient").1 := by simp [e14, hResilient_13]
  have hResilient_15 : o15.Resilient = (p.GetBool "resilient").1 := by simp [e15, hResilient_14]
  have hResilient_16 : o16.Resilient = (p.GetBool "resilient").1 := by simp [e16, hResilient_15]
  have hResilient_17 : o17.Resilient = (p.GetBool "resilient").1 := by simp [e17, hResilient_16]
  have hRecover_10 : o10.Recover = (p.GetBool "recover").1 := by simp [e10]
  have hRecover_11 : o11.Recover = (p.GetBool "recover").1 := by simp [e11, hRecover_10]
  have hRecover_12 : o12.Recover = (p.GetBool "recover").1 := by simp [e12, hRecover_11]
  have hRecover_13 : o13.Recover = (p.GetBool "recover").1 := by simp [e13, hRecover_12]
  have hRecover_14 : o14.Recover = (p.GetBool "recover").1 := by simp [e14, hRecover_13]
  have hRecover_15 : o15.Recover = (p.GetBool "recover").1 := by simp [e15, hRecover_14]
  have hRecover_16 : o16.Recover = (p.GetBool "recover").1 := by simp [e16, hRecover_15]
  have hRecover_17 : o17.Recover = (p.GetBool "recover").1 := by simp [e17, hRecover_16]
  have hCheckFilename_11 : o11.CheckFilename = (p.GetString "checkFilename").1 := by simp [e11]
  have hCheckFilename_12 : o12.CheckFilename = (p.GetString "checkFilename").1 := by simp [e12, hCheckFilename_11]
  have hCheckFilename_13 : o13.CheckFilename = (p.GetString "checkFilename").1 := by simp [e13, hCheckFilename_12]
  have hCheckFilename_14 : o14.CheckFilename = (p.GetString "checkFilename").1 := by simp [e14, hCheckFilename_13]
  have hCheckFilename_15 : o15.CheckFilename = (p.GetString "checkFilename").1 := by simp [e15, hCheckFilename_14]
  have hCheckFilename_16 : o16.CheckFilename = (p.GetString "checkFilename").1 := by simp [e16, hCheckFilename_15]
  have hCheckFilename_17 : o17.CheckFilename = (p.GetString "checkFilename").1 := by simp [e17, hCheckFilename_16]
  have hFiltersFile_12 : o12.FiltersFile = (p.GetString "filtersFile").1 := by simp [e12]
  have hFiltersFile_13 : o13.FiltersFile = (p.GetString "filtersFile").1 := by simp [e13, hFiltersFile_12]
  have hFiltersFile_14 : o14.FiltersFile = (p.GetString "filtersFile").1 := by simp [e14, hFiltersFile_13]
  have hFiltersFile_15 : o15.FiltersFile = (p.GetString "filtersFile").1 := by simp [e15, hFiltersFile_14]
  have hFiltersFile_16 : o16.FiltersFile = (p.GetString "filtersFile").1 := by simp [e16, hFiltersFile_15]
  have hFiltersFile_17 : o17.FiltersFile = (p.GetString "filtersFile").1 := by simp [e17, hFiltersFile_16]
  have hWorkdir_13 : o13.Workdir = (p.GetString "workdir").1 := by simp [e13]
  have hWorkdir_14 : o14.Workdir = (p.GetString "workdir").1 := by simp [e14, hWorkdir_13]
  have hWorkdir_15 : o15.Workdir = (p.GetString "workdir").1 := by simp [e15, hWorkdir_14]
  have hWorkdir_16 : o16.Workdir = (p.GetString "workdir").1 := by simp [e16, hWorkdir_15]
  have hWorkdir_17 : o17.Workdir = (p.GetString "workdir").1 := by simp [e17, hWorkdir_16]
  have hBackupDir1_14 : o14.BackupDir1 = (p.GetString "backupdir1").1 := by simp [e14]
  have hBackupDir1_15 : o15.BackupDir1 = (p.GetString "backupdir1").1 := by simp [e15, hBackupDir1_14]
  have hBackupDir1_16 : o16.BackupDir1 = (p.GetString "backupdir1").1 := by simp [e16, hBackupDir1_15]
  have hBackupDir1_17 : o17.BackupDir1 = (p.GetString "backupdir1").1 := by simp [e17, hBackupDir1_16]
  have hBackupDir2_15 : o15.BackupDir2 = (p.GetString "backupdir2").1 := by simp [e15]
  have hBackupDir2_16 : o16.BackupDir2 = (p.GetString "backupdir2").1 := by simp [e16, hBackupDir2_15]
  have hBackupDir2_17 : o17.BackupDir2 = (p.GetString "backupdir2").1 := by simp [e17, hBackupDir2_16]
  have hConflictResolve_16 : o16.ConflictResolve = (GetPrefer "conflictresolve" p).1 := by simp [e16]
  have hConflictResolve_17 : o17.ConflictResolve = (GetPrefer "conflictresolve" p).1 := by simp [e17, hConflictResolve_16]
  have hConflictSuffixFlag_17 : o17.ConflictSuffixFlag = (p.GetString "conflictsuffix").1 := by simp [e17]
  have hCheckSync : opt'.CheckSync = m := by simp [e18]
  exact ⟨by simp [e18, hDryRun_17], by simp [e18, hMaxDelete_17], by simp [e18, hResync_17], by simp [e18, hResyncMode_17], by simp [e18, hCheckAccess_17], by simp [e18, hForce_17], by simp [e18, hCreateEmptySrcDirs_17], by simp [e18, hRemoveEmptyDirs_17], by simp [e18, hNoCleanup_17], by simp [e18, hIgnoreListingChecksum_17], by simp [e18, hResilient_17], by simp [e18, hRecover_17], by simp [e18, hCheckFilename_17], by simp [e18, hFiltersFile_17], by simp [e18, hWorkdir_17], by simp [e18, hBackupDir1_17], by simp [e18, hBackupDir2_17], by simp [e18, hConflictResolve_17], by simp [e18, hConflictSuffixFlag_17], by rw [hCheckSync]; exact hset⟩

theorem decodeMiddle_ok_fields (p : RcParams) (opt0 opt' : Options)
    (h : decodeMiddle p opt0 = .ok opt') :
    opt'.DryRun = opt0.DryRun ∧ opt'.MaxDelete = opt0.MaxDelete ∧
    opt'.Resync = (p.GetBool "resync").1 ∧
    opt'.ResyncMode = (GetPrefer "resyncmode" p).1 ∧
    opt'.CheckAccess = (p.GetBool "checkAccess").1 ∧
    opt'.Force = (p.GetBool "force").1 ∧
    opt'.CreateEmptySrcDirs = (p.GetBool "createEmptySrcDirs").1 ∧
    opt'.RemoveEmptyDirs = (p.GetBool "removeEmptyDirs").1 ∧
    opt'.NoCleanup = (p.GetBool "noCleanup").1 ∧
    opt'.IgnoreListingChecksum = (p.GetBool "ignoreListingChecksum").1 ∧
    opt'.Resilient = (p.GetBool "resilient").1 ∧
    opt'.Recover = (p.GetBool "recover").1 ∧
    opt'.CheckFilename = (p.GetString "checkFilename").1 ∧
    opt'.FiltersFile = (p.GetString "filtersFile").1 ∧
    opt'.Workdir = (p.GetString "workdir").1 ∧
    opt'.BackupDir1 = (p.GetString "backupdir1").1 ∧
    opt'.BackupDir2 = (p.GetString "backupdir2").1 ∧
    opt'.ConflictResolve = (GetPrefer "conflictresolve" p).1 ∧
    opt'.ConflictSuffixFlag = (p.GetString "conflictsuffix").1 ∧
    CheckSyncMode.Set (effectiveCheckSync p) = .ok opt'.CheckSync := by
  unfold decodeMiddle at h
  obtain ⟨o1, h1, h⟩ := bind_ok_elim h
  have e1 := stepAssign_ok h1
  obtain ⟨o2, h2, h⟩ := bind_ok_elim h
  have e2 := stepAssign_ok h2
  obtain ⟨o3, h3, h⟩ := bind_ok_elim h
  have e3 := stepAssign_ok h3
  obtain ⟨o4, h4, h⟩ := bind_ok_elim h
  have e4 := stepAssign_ok h4
  obtain ⟨o5, h5, h⟩ := bind_ok_elim h
  have e5 := stepAssign_ok h5
  obtain ⟨o6, h6, h⟩ := bind_ok_elim h
  have e6 := stepAssign_ok h6
  obtain ⟨o7, h7, h⟩ := bind_ok_elim h
  have e7 := stepAssign_ok h7
  obtain ⟨o8, h8, h⟩ := bind_ok_elim h
  have e8 := stepAssign_ok h8
  obtain ⟨o9, h9, h⟩ := bind_ok_elim h
  have e9 := stepAssign_ok h9
  obtain ⟨o10, h10, h⟩ := bind_ok_elim h
  have e10 := stepAssign_ok h10
  obtain ⟨o11, h11, h⟩ := bind_ok_elim h
  have e11 := stepAssign_ok h11
  obtain ⟨o12, h12, h⟩ := bind_ok_elim h
  have e12 := stepAssign_ok h12
  obtain ⟨o13, h13, h⟩ := bind_ok_elim h
  have e13 := stepAssign_ok h13
  obtain ⟨o14, h14, h⟩ := bind_ok_elim h
  have e14 := stepAssign_ok h14
  obtain ⟨o15, h15, h⟩ := bind_ok_elim h
  have e15 := stepAssign_ok h15
  obtain ⟨o16, h16, h⟩ := bind_ok_elim h
  have e16 := stepAssign_ok h16
  obtain ⟨o17, h17, h⟩ := bind_ok_elim h
  have e17 := stepAssign_ok h17
  split at h
  · -- the (_, some e) arm of the checkSync read
    rename_i fst e heq
    split at h
    · -- param-not-found: the empty string is replaced by true
      obtain ⟨m, hset, e18⟩ := setCheckSync_ok h
      have heff : CheckSyncMode.Set (effectiveCheckSync p) = .ok m := by
        rw [show effectiveCheckSync p = "true" from by simp [effectiveCheckSync, heq]]
        exact hset
      exact decodeMiddle_ok_chain p opt0 o1 o2 o3 o4 o5 o6 o7 o8 o9 o10 o11 o12
        o13 o14 o15 o16 o17 opt' m e1 e2 e3 e4 e5 e6 e7 e8 e9 e10 e11 e12 e13
        e14 e15 e16 e17 e18 heff
    · simp at h
  · -- the (cs, none) arm
    rename_i cs heq
    obtain ⟨m, hset, e18⟩ := setCheckSync_ok h
    have heff : CheckSyncMode.Set (effectiveCheckSync p) = .ok m := by
      rw [show effectiveCheckSync p = (if cs = "" then "true" else cs) from by
        simp [effectiveCheckSync, heq]]
      exact hset
    exact decodeMiddle_ok_chain p opt0 o1 o2 o3 o4 o5 o6 o7 o8 o9 o10 o11 o12
      o13 o14 o15 o16 o17 opt' m e1 e2 e3 e4 e5 e6 e7 e8 e9 e10 e11 e12 e13
      e14 e15 e16 e17 e18 heff

/-- Fields of the bundle that the middle decode block never assigns. -/
@[simp] def untouchedBy (opt0 o : Options) : Prop :=
  o.DryRun = opt0.DryRun ∧ o.MaxDelete = opt0.MaxDelete

theorem bind_state (P : Options → Prop)
    {x : Except (RcError × Options) Options}
    {f : Options → Except (RcError × Options) Options}
    (hx : P (middleState x))
    (hf : ∀ o, P o → P (middleState (f o))) :
    P (middleState (x >>= f)) := by
  cases x with
  | error e => exact hx
  | ok a => exact hf a hx

theorem middleState_stepAssign {α : Type} (opt : Options) (x : α × Option RcError)
    (set : Options → α → Options) :
    middleState (stepAssign opt x set) = set opt x.1 := by
  rcases x with ⟨v, e⟩
  cases e with
  | none => rfl
  | some e =>
    by_cases h : e.isParamNotFound <;> simp [stepAssign, h]

theorem middleState_setCheckSync (opt : Options) (s : String) :
    (middleState (setCheckSync opt s)).DryRun = opt.DryRun ∧
    (middleState (setCheckSync opt s)).MaxDelete = opt.MaxDelete := by
  unfold setCheckSync
  split <;> simp

theorem decodeMiddle_preserves (p : RcParams) (opt0 : Options) :
    untouchedBy opt0 (middleState (decodeMiddle p opt0)) := by
  unfold decodeMiddle
  refine bind_state (untouchedBy opt0) (by simp [middleState_stepAssign]) (fun o1 h1 => ?_)
  refine bind_state (untouchedBy opt0) (by simp [middleState_stepAssign]; simp_all) (fun o2 h2 => ?_)
  refine bind_state (untouchedBy opt0) (by simp [middleState_stepAssign]; simp_all) (fun o3 h3 => ?_)
  refine bind_state (untouchedBy opt0) (by simp [middleState_stepAssign]; simp_all) (fun o4 h4 => ?_)
  refine bind_state (untouchedBy opt0) (by simp [middleState_stepAssign]; simp_all) (fun o5 h5 => ?_)
  refine bind_state (untouchedBy opt0) (by simp [middleState_stepAssign]; simp_all) (fun o6 h6 => ?_)
  refine bind_state (untouchedBy opt0) (by simp [middleState_stepAssign]; simp_all) (fun o7 h7 => ?_)
  refine bind_state (untouchedBy opt0) (by simp [middleState_stepAssign]; simp_all) (fun o8 h8 => ?_)
  refine bind_state (untouchedBy opt0) (by simp [middleState_stepAssign]; simp_all) (fun o9 h9 => ?_)
  refine bind_state (untouchedBy opt0) (by simp [middleState_stepAssign]; simp_all) (fun o10 h10 => ?_)
  refine bind_state (untouchedBy opt0) (by simp [middleState_stepAssign]; simp_all) (fun o11 h11 => ?_)
  refine bind_state (untouchedBy opt0) (by simp [middleState_stepAssign]; simp_all) (fun o12 h12 => ?_)
  refine bind_state (untouchedBy opt0) (by simp [middleState_stepAssign]; simp_all) (fun o13 h13 => ?_)
  refine bind_state (untouchedBy opt0) (by simp [middleState_stepAssign]; simp_all) (fun o14 h14 => ?_)
  refine bind_state (untouchedBy opt0) (by simp [middleState_stepAssign]; simp_all) (fun o15 h15 => ?_)
  refine bind_state (untouchedBy opt0) (by simp [middleState_stepAssign]; simp_all) (fun o16 h16 => ?_)
  refine bind_state (untouchedBy opt0) (by simp [middleState_stepAssign]; simp_all) (fun o17 h17 => ?_)
  rcases hcs : p.GetString "checkSync" with ⟨cs, e⟩
  cases e with
  | none =>
    have := middleState_setCheckSync o17 (if cs = "" then "true" else cs)
    simp_all
  | some e =>
    by_cases hn : e.isParamNotFound
    · have := middleState_setCheckSync o17 "true"
      simp_all
    · simp_all

end BisyncRC

namespace BisyncRC

/-- The configuration and bundle state carried by either side of a
decodeParams result. -/
def dpState : Except (RcError × ConfigInfo × Options) (ConfigInfo × Options) →
    ConfigInfo × Options
  | .ok s => s
  | .error (_, s) => s

@[simp] theorem dpState_ok (s : ConfigInfo × Options) : dpState (.ok s) = s := rfl

@[simp] theorem dpState_error (e : RcError) (s : ConfigInfo × Options) :
    dpState (.error (e, s)) = s := rfl

theorem rcBisync_state (env : String → Option String)
    (bi : String → String → Options → String × Option RcError)
    (ci0 : ConfigInfo) (p : RcParams) :
    (rcBisync env bi ci0 p).ci = (dpState (decodeParams ci0 p)).1 ∧
    (rcBisync env bi ci0 p).opt = (dpState (decodeParams ci0 p)).2 := by
  unfold rcBisync
  rcases hdp : decodeParams ci0 p with ⟨e, ci, opt⟩ | ⟨ci, opt⟩
  · simp
  · simp only [dpState_ok]
    rcases h1 : GetFsNamed env p "path1" with e | fs1
    · simp
    · rcases h2 : GetFsNamed env p "path2" with e | fs2 <;> simp

theorem GetBool_err (p : RcParams) (key : String) :
    (p.GetBool key).2 = none ∨ (p.GetBool key).2 = some (.paramNotFound key) ∨
    ∃ m, (p.GetBool key).2 = some (.paramInvalid m) := by
  unfold RcParams.GetBool
  rcases p.lookup key with _ | (b | n | s) <;> simp

theorem decodeDryRun_cases (ci : ConfigInfo) (opt : Options) (p : RcParams) :
    (∀ b, p.lookup "dryRun" = some (.vBool b) →
       decodeDryRun ci opt p = .ok ({ ci with DryRun := b }, { opt with DryRun := b })) ∧
    (p.lookup "dryRun" = none → decodeDryRun ci opt p = .ok (ci, opt)) ∧
    (∀ v, p.lookup "dryRun" = some v → (∀ b, v ≠ .vBool b) →
       ∃ m, decodeDryRun ci opt p = .error (.paramInvalid m, ci, opt)) := by
  refine ⟨?_, ?_, ?_⟩
  · intro b hb
    simp [decodeDryRun, RcParams.GetBool, hb]
  · intro hn
    simp [decodeDryRun, RcParams.GetBool, hn, RcError.isParamNotFound]
  · rintro (b | n | s) hv hnb
    · exact absurd rfl (hnb b)
    · exact ⟨"expecting bool value for key " ++ "dryRun",
        by simp [decodeDryRun, RcParams.GetBool, hv, RcError.isParamNotFound]⟩
    · exact ⟨"expecting bool value for key " ++ "dryRun",
        by simp [decodeDryRun, RcParams.GetBool, hv, RcError.isParamNotFound]⟩

theorem decodeDryRun_error {ci : ConfigInfo} {opt : Options} {p : RcParams}
    {e : RcError} {ci' : ConfigInfo} {opt' : Options}
    (h : decodeDryRun ci opt p = .error (e, ci', opt')) :
    (∃ m, e = .paramInvalid m) ∧ ci' = ci ∧ opt' = opt := by
  unfold decodeDryRun at h
  split at h
  · simp at h
  · rename_i v e2 heq
    split at h
    · simp at h
    · rename_i hn
      simp only [Except.error.injEq, Prod.mk.injEq] at h
      obtain ⟨he, hci, hopt⟩ := h
      subst he hci hopt
      refine ⟨?_, rfl, rfl⟩
      rcases GetBool_err p "dryRun" with h0 | h0 | ⟨m, h0⟩ <;> rw [heq] at h0
      · simp at h0
      · simp only [Option.some.injEq] at h0
        subst h0
        simp [RcError.isParamNotFound] at hn
      · simp only [Option.some.injEq] at h0
        exact ⟨m, h0⟩

theorem decodeMaxDelete_DryRun {opt : Options} {p : RcParams} {o : Options}
    (h : decodeMaxDelete opt p = .ok o) : o.DryRun = opt.DryRun := by
  unfold decodeMaxDelete at h
  split at h
  · split at h
    · simp at h
    · simp only [Except.ok.injEq] at h
      subst h
      rfl
  · split at h
    · simp only [Except.ok.injEq] at h
      subst h
      rfl
    · simp at h

theorem decodeMaxDelete_out_of_range (opt : Options) {p : RcParams} {n : Int}
    (hmd : p.lookup "maxDelete" = some (.vInt n)) (hr : n < 0 ∨ 100 < n) :
    decodeMaxDelete opt p =
      .error (.paramInvalid "maxDelete must be a percentage between 0 and 100") := by
  have : p.GetInt64 "maxDelete" = (n, none) := by simp [RcParams.GetInt64, hmd]
  unfold decodeMaxDelete
  rw [this]
  simp only []
  rw [if_pos]
  rcases hr with hr | hr
  · exact Or.inl hr
  · exact Or.inr hr

theorem decodeMaxDelete_in_range (opt : Options) {p : RcParams} {n : Int}
    (hmd : p.lookup "maxDelete" = some (.vInt n)) (h0 : 0 ≤ n) (h100 : n ≤ 100) :
    decodeMaxDelete opt p = .ok { opt with MaxDelete := n } := by
  have : p.GetInt64 "maxDelete" = (n, none) := by simp [RcParams.GetInt64, hmd]
  unfold decodeMaxDelete
  rw [this]
  simp only []
  rw [if_neg]
  push_neg
  exact ⟨h0, h100⟩

theorem rcBisync_decode_error (env : String → Option String)
    (bi : String → String → Options → String × Option RcError)
    (ci0 : ConfigInfo) (p : RcParams) {e : RcError} {ci : ConfigInfo} {opt : Options}
    (h : decodeParams ci0 p = .error (e, ci, opt)) :
    rcBisync env bi ci0 p = ⟨none, some e, ci, opt, []⟩ := by
  unfold rcBisync
  simp [h]

theorem decodeParams_after_dryRun (ci0 : ConfigInfo) (p : RcParams)
    (ci1 : ConfigInfo) (opt1 : Options)
    (h : decodeDryRun ci0 {} p = .ok (ci1, opt1)) :
    (dpState (decodeParams ci0 p)).1 = ci1 ∧
    (dpState (decodeParams ci0 p)).2.DryRun = opt1.DryRun := by
  unfold decodeParams
  rw [h]
  rcases hmd : decodeMaxDelete opt1 p with e | opt2
  · simp [hmd]
  · have hDR : opt2.DryRun = opt1.DryRun := decodeMaxDelete_DryRun hmd
    have hp := decodeMiddle_preserves p opt2
    rcases hm : decodeMiddle p opt2 with ⟨e, o⟩ | o <;> rw [hm] at hp <;>
      simp_all [hmd, hm]

/-- C7: when dryRun decodes as a bool, rcBisync copies it into both the
request-scoped configuration DryRun flag and the bundle DryRun field; when
dryRun is absent both keep their prior values (the bundle zero value is
false); a present non-bool dryRun aborts with an invalid-parameter error and
a nil result. -/
theorem rcBisync_dryRun (env : String → Option String)
    (bi : String → String → Options → String × Option RcError)
    (ci0 : ConfigInfo) (p : RcParams) :
    (∀ b, p.lookup "dryRun" = some (.vBool b) →
        (rcBisync env bi ci0 p).ci.DryRun = b ∧ (rcBisync env bi ci0 p).opt.DryRun = b) ∧
    (p.lookup "dryRun" = none →
        (rcBisync env bi ci0 p).ci.DryRun = ci0.DryRun ∧
        (rcBisync env bi ci0 p).opt.DryRun = false) ∧
    (∀ v, p.lookup "dryRun" = some v → (∀ b, v ≠ .vBool b) →
        (rcBisync env bi ci0 p).out = none ∧
        ∃ m, (rcBisync env bi ci0 p).err = some (.paramInvalid m)) := by
  obtain ⟨hci, hopt⟩ := rcBisync_state env bi ci0 p
  refine ⟨?_, ?_, ?_⟩
  · intro b hb
    have hdd := (decodeDryRun_cases ci0 {} p).1 b hb
    have := decodeParams_after_dryRun ci0 p _ _ hdd
    rw [hci, hopt]
    exact ⟨by rw [this.1], by rw [this.2]⟩
  · intro hn
    have hdd := (decodeDryRun_cases ci0 {} p).2.1 hn
    have := decodeParams_after_dryRun ci0 p _ _ hdd
    rw [hci, hopt]
    exact ⟨by rw [this.1], by rw [this.2]⟩
  · intro v hv hnb
    obtain ⟨m, hdd⟩ := (decodeDryRun_cases ci0 {} p).2.2 v hv hnb
    have hdp : decodeParams ci0 p = .error (.paramInvalid m, ci0, {}) := by
      unfold decodeParams
      rw [hdd]
    rw [rcBisync_decode_error env bi ci0 p hdp]
    exact ⟨rfl, m, rfl⟩

/-- C1: a maxDelete integer outside 0–100 makes rcBisync fail with an
invalid-parameter error and a nil result before any collaborator call (no
backend resolution, no Bisync run); an in-range maxDelete is stored in the
bundle MaxDelete field (provided the preceding dryRun block did not abort). -/
theorem rcBisync_maxDelete (env : String → Option String)
    (bi : String → String → Options → String × Option RcError)
    (ci0 : ConfigInfo) (p : RcParams) (n : Int)
    (hmd : p.lookup "maxDelete" = some (.vInt n)) :
    ((n < 0 ∨ 100 < n) →
        (rcBisync env bi ci0 p).out = none ∧
        (∃ m, (rcBisync env bi ci0 p).err = some (.paramInvalid m)) ∧
        (rcBisync env bi ci0 p).events = []) ∧
    ((0 ≤ n ∧ n ≤ 100) → NotErrParamNotFound (p.GetBool "dryRun").2 = false →
        (rcBisync env bi ci0 p).opt.MaxDelete = n) := by
  constructor
  · intro hr
    rcases hdd : decodeDryRun ci0 {} p with ⟨e, ci, opt⟩ | ⟨ci, opt⟩
    · obtain ⟨⟨m, hm⟩, hc, ho⟩ := decodeDryRun_error hdd
      have hdp : decodeParams ci0 p = .error (e, ci, opt) := by
        unfold decodeParams
        rw [hdd]
      rw [rcBisync_decode_error env bi ci0 p hdp]
      subst hm
      exact ⟨rfl, ⟨m, rfl⟩, rfl⟩
    · have hmdl := decodeMaxDelete_out_of_range opt hmd hr
      have hdp : decodeParams ci0 p =
          .error (.paramInvalid "maxDelete must be a percentage between 0 and 100", ci, opt) := by
        unfold decodeParams
        simp only [hdd]
        simp only [hmdl]
      rw [rcBisync_decode_error env bi ci0 p hdp]
      exact ⟨rfl, ⟨_, rfl⟩, rfl⟩
  · rintro ⟨h0, h100⟩ hdry
    obtain ⟨hci, hopt⟩ := rcBisync_state env bi ci0 p
    rw [hopt]
    rcases hdd : decodeDryRun ci0 {} p with ⟨e, ci, opt⟩ | ⟨ci, opt⟩
    · exfalso
      unfold decodeDryRun at hdd
      split at hdd
      · simp at hdd
      · rename_i v e2 heq
        split at hdd
        · simp at hdd
        · rename_i hn
          have : NotErrParamNotFound (p.GetBool "dryRun").2 = true := by
            rw [heq]
            simp [NotErrParamNotFound, hn]
          rw [this] at hdry
          exact Bool.noConfusion hdry
    · have hmdl := decodeMaxDelete_in_range opt hmd h0 h100
      unfold decodeParams
      simp only [hdd]
      simp only [hmdl]
      have hp := decodeMiddle_preserves p { opt with MaxDelete := n }
      rcases hm : decodeMiddle p { opt with MaxDelete := n } with ⟨e, o⟩ | o <;>
        rw [hm] at hp <;> simp_all



theorem decodeParams_ok_elim {ci0 : ConfigInfo} {p : RcParams} {ci : ConfigInfo}
    {opt : Options} (h : decodeParams ci0 p = .ok (ci, opt)) :
    ∃ opt1 opt2, decodeDryRun ci0 {} p = .ok (ci, opt1) ∧
      decodeMaxDelete opt1 p = .ok opt2 ∧ decodeMiddle p opt2 = .ok opt := by
  unfold decodeParams at h
  split at h
  · simp at h
  · rename_i ci1 opt1 heq1
    split at h
    · simp at h
    · rename_i opt2 heq2
      split at h
      · simp at h
      · rename_i opt3 heq3
        simp only [Except.ok.injEq, Prod.mk.injEq] at h
        obtain ⟨hci, hopt⟩ := h
        subst hci hopt
        exact ⟨opt1, opt2, heq1, heq2, heq3⟩

theorem decodeMiddle_ok_CheckSync {p : RcParams} {opt0 opt' : Options}
    (h : decodeMiddle p opt0 = .ok opt') :
    CheckSyncMode.Set (effectiveCheckSync p) = .ok opt'.CheckSync := by
  obtain ⟨-, -, -, -, -, -, -, -, -, -, -, -, -, -, -, -, -, -, -, hcs⟩ :=
    decodeMiddle_ok_fields p opt0 opt' h
  exact hcs

/-- C3: post-run consistency verification defaults to on — with checkSync
absent or the empty string the bundle CheckSync field is set from the string
true; a present non-empty value is handed to CheckSync.Set unchanged, and a
Set failure makes rcBisync abort with an error and a nil result. -/
theorem rcBisync_checkSync (env : String → Option String)
    (bi : String → String → Options → String × Option RcError)
    (ci0 : ConfigInfo) (p : RcParams) :
    (∀ ci opt, decodeParams ci0 p = .ok (ci, opt) →
       ((p.lookup "checkSync" = none ∨ p.lookup "checkSync" = some (.vString "")) →
         CheckSyncMode.Set "true" = .ok opt.CheckSync) ∧
       (∀ s, p.lookup "checkSync" = some (.vString s) → s ≠ "" →
         CheckSyncMode.Set s = .ok opt.CheckSync)) ∧
    (∀ s e, p.lookup "checkSync" = some (.vString s) → s ≠ "" →
       CheckSyncMode.Set s = .error e →
       (rcBisync env bi ci0 p).out = none ∧
       ∃ e2, (rcBisync env bi ci0 p).err = some e2) := by
  have key : ∀ ci opt, decodeParams ci0 p = .ok (ci, opt) →
      CheckSyncMode.Set (effectiveCheckSync p) = .ok opt.CheckSync := by
    intro ci opt hok
    obtain ⟨opt1, opt2, -, -, h3⟩ := decodeParams_ok_elim hok
    exact decodeMiddle_ok_CheckSync h3
  constructor
  · intro ci opt hok
    constructor
    · rintro (habs | hemp)
      · have : effectiveCheckSync p = "true" := by
          simp [effectiveCheckSync, RcParams.GetString, habs]
        rw [← this]
        exact key ci opt hok
      · have : effectiveCheckSync p = "true" := by
          simp [effectiveCheckSync, RcParams.GetString, hemp]
        rw [← this]
        exact key ci opt hok
    · intro cs hcs hne
      have : effectiveCheckSync p = cs := by
        simp [effectiveCheckSync, RcParams.GetString, hcs, hne]
      rw [← this]
      exact key ci opt hok
  · intro cs e hcs hne hset
    rcases hdp : decodeParams ci0 p with ⟨e2, ci, opt⟩ | ⟨ci, opt⟩
    · rw [rcBisync_decode_error env bi ci0 p hdp]
      exact ⟨rfl, e2, rfl⟩
    · exfalso
      have hok := key ci opt hdp
      have : effectiveCheckSync p = cs := by
        simp [effectiveCheckSync, RcParams.GetString, hcs, hne]
      rw [this, hset] at hok
      simp at hok

/-- C4 (amended): the recognized option keys are the all-lowercase spellings
resyncmode, conflictresolve, conflictsuffix, backupdir1 and backupdir2; for
every successfully decoded parameter map the corresponding bundle fields hold
exactly the values decoded from those lowercase keys. -/
theorem rcBisync_lowercase_option_keys (env : String → Option String)
    (bi : String → String → Options → String × Option RcError)
    (ci0 : ConfigInfo) (p : RcParams) (ci : ConfigInfo) (opt : Options)
    (hok : decodeParams ci0 p = .ok (ci, opt)) :
    (rcBisync env bi ci0 p).opt.ResyncMode = (GetPrefer "resyncmode" p).1 ∧
    (rcBisync env bi ci0 p).opt.ConflictResolve = (GetPrefer "conflictresolve" p).1 ∧
    (rcBisync env bi ci0 p).opt.ConflictSuffixFlag = (p.GetString "conflictsuffix").1 ∧
    (rcBisync env bi ci0 p).opt.BackupDir1 = (p.GetString "backupdir1").1 ∧
    (rcBisync env bi ci0 p).opt.BackupDir2 = (p.GetString "backupdir2").1 := by
  obtain ⟨-, hopt⟩ := rcBisync_state env bi ci0 p
  rw [hok] at hopt
  simp only [dpState_ok] at hopt
  obtain ⟨opt1, opt2, -, -, h3⟩ := decodeParams_ok_elim hok
  obtain ⟨-, -, -, hrm, -, -, -, -, -, -, -, -, -, -, -, hb1, hb2, hcr, hcsf, -⟩ :=
    decodeMiddle_ok_fields p opt2 opt h3
  rw [hopt]
  exact ⟨hrm, hcr, hcsf, hb1, hb2⟩

/-- C4 counterexample: the camelCase key resyncMode of the claim is not read
by rcBisync — a run supplied with resyncMode=path1 leaves the bundle
ResyncMode at its zero value PreferNone instead of PreferPath1. -/
theorem rcBisync_camelCase_keys_counterexample :
    ((rcBisync (fun s => some s) (fun _ _ _ => ("", none)) {}
        [("resyncMode", RcValue.vString "path1"), ("path1", RcValue.vString "a"),
         ("path2", RcValue.vString "b")]).opt.ResyncMode = Prefer.PreferNone) ∧
    Prefer.PreferNone ≠ Prefer.PreferPath1 := by
  constructor
  · decide
  · decide

/-- C5: the two locations are mandatory — if path1 or path2 is missing or
does not resolve to a backend handle, rcBisync returns an error and a nil
result and never invokes Bisync; moreover the resolver is only ever consulted
after the whole option decode has succeeded. -/
theorem rcBisync_paths_mandatory (env : String → Option String)
    (bi : String → String → Options → String × Option RcError)
    (ci0 : ConfigInfo) (p : RcParams)
    (h : (∃ e, GetFsNamed env p "path1" = .error e) ∨
         (∃ e, GetFsNamed env p "path2" = .error e)) :
    (rcBisync env bi ci0 p).out = none ∧
    (∃ e, (rcBisync env bi ci0 p).err = some e) ∧
    RcEvent.runBisync ∉ (rcBisync env bi ci0 p).events ∧
    (∀ k, RcEvent.resolveFs k ∈ (rcBisync env bi ci0 p).events →
      ∃ s, decodeParams ci0 p = .ok s) := by
  unfold rcBisync
  rcases hdp : decodeParams ci0 p with ⟨e0, ci, opt⟩ | ⟨ci, opt⟩
  · exact ⟨rfl, ⟨e0, rfl⟩, by simp, by simp⟩
  · rcases h1 : GetFsNamed env p "path1" with e1 | fs1
    · exact ⟨rfl, ⟨e1, rfl⟩, by simp, fun k hk => ⟨(ci, opt), rfl⟩⟩
    · rcases h2 : GetFsNamed env p "path2" with e2 | fs2
      · exact ⟨rfl, ⟨e2, rfl⟩, by simp, fun k hk => ⟨(ci, opt), rfl⟩⟩
      · exfalso
        rcases h with ⟨e, he⟩ | ⟨e, he⟩
        · rw [h1] at he
          exact Except.noConfusion he
        · rw [h2] at he
          exact Except.noConfusion he

/-- C6: on a fully successful decode and resolution, rcBisync returns a
result map whose output key holds exactly the text captured around the
Bisync run, together with the run error itself — the captured text is
returned even when Bisync fails. -/
theorem rcBisync_output (env : String → Option String)
    (bi : String → String → Options → String × Option RcError)
    (ci0 : ConfigInfo) (p : RcParams) (ci : ConfigInfo) (opt : Options)
    (fs1 fs2 : String)
    (hdec : decodeParams ci0 p = .ok (ci, opt))
    (h1 : GetFsNamed env p "path1" = .ok fs1)
    (h2 : GetFsNamed env p "path2" = .ok fs2) :
    (rcBisync env bi ci0 p).out = some [("output", (bi fs1 fs2 opt).1)] ∧
    (rcBisync env bi ci0 p).err = (bi fs1 fs2 opt).2 := by
  unfold rcBisync
  simp [hdec, h1, h2]

/-- C2: GetPrefer maps exactly the seven accepted strings to the seven
distinct Prefer values without error, and any other string value present
under the key yields PreferNone with an invalid-parameter error naming both
the value and the key. -/
theorem GetPrefer_seven_values (key : String) (p : RcParams) (s : String)
    (h : p.lookup key = some (.vString s)) :
    (s = "none" → GetPrefer key p = (.PreferNone, none)) ∧
    (s = "path1" → GetPrefer key p = (.PreferPath1, none)) ∧
    (s = "path2" → GetPrefer key p = (.PreferPath2, none)) ∧
    (s = "newer" → GetPrefer key p = (.PreferNewer, none)) ∧
    (s = "older" → GetPrefer key p = (.PreferOlder, none)) ∧
    (s = "larger" → GetPrefer key p = (.PreferLarger, none)) ∧
    (s = "smaller" → GetPrefer key p = (.PreferSmaller, none)) ∧
    ([Prefer.PreferNone, Prefer.PreferPath1, Prefer.PreferPath2, Prefer.PreferNewer,
      Prefer.PreferOlder, Prefer.PreferLarger, Prefer.PreferSmaller] : List Prefer).Nodup ∧
    (s ∉ (["none", "path1", "path2", "newer", "older", "larger", "smaller"] : List String) →
      GetPrefer key p = (.PreferNone, some (.paramInvalid
        ("invalid prefer value \"" ++ s ++ "\" for key \"" ++ key ++ "\"")))) := by
  have hg : p.GetString key = (s, none) := by
    simp [RcParams.GetString, h]
  refine ⟨?_, ?_, ?_, ?_, ?_, ?_, ?_, by decide, ?_⟩
  all_goals
    first
    | (rintro rfl; simp [GetPrefer, hg])
    | (intro hs
       simp only [List.mem_cons, not_or] at hs
       obtain ⟨h1, h2, h3, h4, h5, h6, h7, -⟩ := hs
       simp only [GetPrefer, hg])


theorem rcBisync_maxDelete_witness :
    (rcBisync (fun s => some s) (fun _ _ _ => ("", none)) {}
        [("maxDelete", RcValue.vInt 101)]).out = none ∧
    (∃ m, (rcBisync (fun s => some s) (fun _ _ _ => ("", none)) {}
        [("maxDelete", RcValue.vInt 101)]).err = some (.paramInvalid m)) ∧
    (rcBisync (fun s => some s) (fun _ _ _ => ("", none)) {}
        [("maxDelete", RcValue.vInt 101)]).events = [] :=
  (rcBisync_maxDelete (fun s => some s) (fun _ _ _ => ("", none)) {}
      [("maxDelete", RcValue.vInt 101)] 101 (by decide)).1 (by decide)

theorem rcBisync_dryRun_witness :
    (rcBisync (fun s => some s) (fun _ _ _ => ("", none)) {}
        [("dryRun", RcValue.vBool true)]).ci.DryRun = true ∧
    (rcBisync (fun s => some s) (fun _ _ _ => ("", none)) {}
        [("dryRun", RcValue.vBool true)]).opt.DryRun = true :=
  (rcBisync_dryRun (fun s => some s) (fun _ _ _ => ("", none)) {}
      [("dryRun", RcValue.vBool true)]).1 true (by decide)

theorem GetPrefer_seven_values_witness :
    GetPrefer "resyncmode" [("resyncmode", RcValue.vString "larger")] =
      (.PreferLarger, none) :=
  ((GetPrefer_seven_values "resyncmode" [("resyncmode", RcValue.vString "larger")]
      "larger" (by decide)).2.2.2.2.2.1) rfl

theorem rcBisync_checkSync_witness :
    (rcBisync (fun s => some s) (fun _ _ _ => ("", none)) {}
        [("checkSync", RcValue.vString "bogus")]).out = none ∧
    ∃ e2, (rcBisync (fun s => some s) (fun _ _ _ => ("", none)) {}
        [("checkSync", RcValue.vString "bogus")]).err = some e2 :=
  (rcBisync_checkSync (fun s => some s) (fun _ _ _ => ("", none)) {}
      [("checkSync", RcValue.vString "bogus")]).2 "bogus"
    (.configError ("unknown check-sync mode \"" ++ "bogus" ++ "\""))
    (by decide) (by decide) rfl

theorem rcBisync_lowercase_option_keys_witness :
    (rcBisync (fun s => some s) (fun _ _ _ => ("", none)) {}
        [("resyncmode", RcValue.vString "path1")]).opt.ResyncMode =
      (GetPrefer "resyncmode" [("resyncmode", RcValue.vString "path1")]).1 ∧
    (rcBisync (fun s => some s) (fun _ _ _ => ("", none)) {}
        [("resyncmode", RcValue.vString "path1")]).opt.ConflictResolve =
      (GetPrefer "conflictresolve" [("resyncmode", RcValue.vString "path1")]).1 ∧
    (rcBisync (fun s => some s) (fun _ _ _ => ("", none)) {}
        [("resyncmode", RcValue.vString "path1")]).opt.ConflictSuffixFlag =
      (RcParams.GetString [("resyncmode", RcValue.vString "path1")] "conflictsuffix").1 ∧
    (rcBisync (fun s => some s) (fun _ _ _ => ("", none)) {}
        [("resyncmode", RcValue.vString "path1")]).opt.BackupDir1 =
      (RcParams.GetString [("resyncmode", RcValue.vString "path1")] "backupdir1").1 ∧
    (rcBisync (fun s => some s) (fun _ _ _ => ("", none)) {}
        [("resyncmode", RcValue.vString "path1")]).opt.BackupDir2 =
      (RcParams.GetString [("resyncmode", RcValue.vString "path1")] "backupdir2").1 :=
  rcBisync_lowercase_option_keys (fun s => some s) (fun _ _ _ => ("", none)) {}
    [("resyncmode", RcValue.vString "path1")] {}
    { ResyncMode := Prefer.PreferPath1 } rfl

theorem rcBisync_paths_mandatory_witness :
    (rcBisync (fun s => some s) (fun _ _ _ => ("", none)) {}
        [("path1", RcValue.vString "a")]).out = none ∧
    (∃ e, (rcBisync (fun s => some s) (fun _ _ _ => ("", none)) {}
        [("path1", RcValue.vString "a")]).err = some e) ∧
    RcEvent.runBisync ∉ (rcBisync (fun s => some s) (fun _ _ _ => ("", none)) {}
        [("path1", RcValue.vString "a")]).events ∧
    (∀ k, RcEvent.resolveFs k ∈ (rcBisync (fun s => some s) (fun _ _ _ => ("", none)) {}
        [("path1", RcValue.vString "a")]).events →
      ∃ s, decodeParams {} [("path1", RcValue.vString "a")] = .ok s) :=
  rcBisync_paths_mandatory (fun s => some s) (fun _ _ _ => ("", none)) {}
    [("path1", RcValue.vString "a")]
    (Or.inr ⟨.paramNotFound "path2", rfl⟩)

theorem rcBisync_output_witness :
    (rcBisync (fun s => some s) (fun _ _ _ => ("captured output", some (.configError "engine failed"))) {}
        [("path1", RcValue.vString "a"), ("path2", RcValue.vString "b")]).out =
      some [("output", "captured output")] ∧
    (rcBisync (fun s => some s) (fun _ _ _ => ("captured output", some (.configError "engine failed"))) {}
        [("path1", RcValue.vString "a"), ("path2", RcValue.vString "b")]).err =
      some (.configError "engine failed") :=
  rcBisync_output (fun s => some s)
    (fun _ _ _ => ("captured output", some (.configError "engine failed"))) {}
    [("path1", RcValue.vString "a"), ("path2", RcValue.vString "b")] {} {} "a" "b"
    rfl rfl rfl

end BisyncRC

namespace VFSCommon

/-- Nanoseconds in a second: the unit of Go `time.Duration` and rclone
`fs.Duration` is the nanosecond. -/
def timeSecond : Int := 1000000000

/-- Nanoseconds in a millisecond. -/
def timeMillisecond : Int := 1000000

/-- Nanoseconds in a minute (`time.Minute`). -/
def timeMinute : Int := 60 * timeSecond

/-- Constant `fs.Mebi` (2 to the 20th), the unit of the chunk-size defaults. -/
def fsMebi : Int := 1048576

/-- Modelled from the spec: the VFS cache mode (off|minimal|writes|full); the
CacheMode type lives outside the given sources. -/
inductive CacheMode where
  | CacheModeOff
  | CacheModeMinimal
  | CacheModeWrites
  | CacheModeFull
deriving DecidableEq, Repr

/-- Environment-dependent inputs of options.go: the operating-system name
(`runtime.GOOS`) and the process umask, uid and gid read by getUmask, getUID
and getGID. -/
structure SysEnv where
  goos : String
  umask : Nat
  uid : Nat
  gid : Nat
deriving DecidableEq, Repr

/-- A declared default value in the option table (`fs.Option.Default`),
tagged by its Go type. -/
inductive OptDefault where
  | ofBool (b : Bool)
  | ofDuration (d : Int)
  | ofSize (n : Int)
  | ofCacheMode (m : CacheMode)
  | ofFileMode (m : Nat)
  | ofUInt32 (n : Nat)
  | ofInt (n : Int)
deriving DecidableEq, Repr

/-- One entry of the option table: its name and declared default (the Help
and Groups strings carry no semantics for the claims and are omitted). -/
structure OptionInfo where
  Name : String
  Default : OptDefault
deriving DecidableEq, Repr

/-- Table `OptionsInfo` from vfs/vfscommon/options.go, in source order. -/
def OptionsInfo (env : SysEnv) : List OptionInfo := [
  ⟨"no_modtime", .ofBool false⟩,
  ⟨"no_checksum", .ofBool false⟩,
  ⟨"no_seek", .ofBool false⟩,
  ⟨"dir_cache_time", .ofDuration (5 * 60 * timeSecond)⟩,
  ⟨"vfs_refresh", .ofBool false⟩,
  ⟨"poll_interval", .ofDuration timeMinute⟩,
  ⟨"read_only", .ofBool false⟩,
  ⟨"vfs_links", .ofBool false⟩,
  ⟨"vfs_cache_mode", .ofCacheMode .CacheModeOff⟩,
  ⟨"vfs_cache_poll_interval", .ofDuration (60 * timeSecond)⟩,
  ⟨"vfs_cache_max_age", .ofDuration (3600 * timeSecond)⟩,
  ⟨"vfs_cache_max_size", .ofSize (-1)⟩,
  ⟨"vfs_cache_min_free_space", .ofSize (-1)⟩,
  ⟨"vfs_read_chunk_size", .ofSize (128 * fsMebi)⟩,
  ⟨"vfs_read_chunk_size_limit", .ofSize (-1)⟩,
  ⟨"vfs_read_chunk_streams", .ofInt 0⟩,
  ⟨"dir_perms", .ofFileMode 0o777⟩,
  ⟨"file_perms", .ofFileMode 0o666⟩,
  ⟨"link_perms", .ofFileMode 0o666⟩,
  ⟨"vfs_case_insensitive", .ofBool (env.goos == "windows" || env.goos == "darwin")⟩,
  ⟨"vfs_block_norm_dupes", .ofBool false⟩,
  ⟨"vfs_write_wait", .ofDuration (1000 * timeMillisecond)⟩,
  ⟨"vfs_read_wait", .ofDuration (20 * timeMillisecond)⟩,
  ⟨"vfs_write_back", .ofDuration (5 * timeSecond)⟩,
  ⟨"vfs_read_ahead", .ofSize (0 * fsMebi)⟩,
  ⟨"vfs_used_is_size", .ofBool false⟩,
  ⟨"vfs_fast_fingerprint", .ofBool false⟩,
  ⟨"vfs_disk_space_total_size", .ofSize (-1)⟩,
  ⟨"umask", .ofFileMode env.umask⟩,
  ⟨"uid", .ofUInt32 env.uid⟩,
  ⟨"gid", .ofUInt32 env.gid⟩]

/-- Type `TempFileHandlingMode` from options.go (a Go int). -/
abbrev TempFileHandlingMode := Int

/-- TempFileNormal - handle temporary files normally. -/
def TempFileNormal : TempFileHandlingMode := 0

/-- TempFileSafe - handle temporary files more safely. -/
def TempFileSafe : TempFileHandlingMode := 1

/-- TempFileAggressive - handle temporary files aggressively. -/
def TempFileAggressive : TempFileHandlingMode := 2

/-- Struct `Options` from vfs/vfscommon/options.go: the typed VFS option struct.
Durations are nanosecond counts, sizes byte counts, file modes 32-bit
values. -/
structure Options where
  NoSeek : Bool
  NoChecksum : Bool
  ReadOnly : Bool
  Links : Bool
  NoModTime : Bool
  DirCacheTime : Int
  Refresh : Bool
  PollInterval : Int
  Umask : Nat
  UID : Nat
  GID : Nat
  DirPerms : Nat
  FilePerms : Nat
  LinkPerms : Nat
  ChunkSize : Int
  ChunkSizeLimit : Int
  ChunkStreams : Int
  CacheMode : CacheMode
  CacheMaxAge : Int
  CacheMaxSize : Int
  CacheMinFreeSpace : Int
  CachePollInterval : Int
  CaseInsensitive : Bool
  BlockNormDupes : Bool
  WriteWait : Int
  ReadWait : Int
  WriteBack : Int
  ReadAhead : Int
  UsedIsSize : Bool
  FastFingerprint : Bool
  DiskSpaceTotalSize : Int
  TempFileHandling : TempFileHandlingMode
  TempFileTimeout : Int
deriving DecidableEq, Repr

/-- Value `DefaultOpt` from vfs/vfscommon/options.go. -/
def DefaultOpt (env : SysEnv) : Options := {
  NoSeek := false
  NoChecksum := false
  ReadOnly := false
  Links := false
  NoModTime := false
  DirCacheTime := 5 * 60 * timeSecond
  Refresh := false
  PollInterval := timeMinute
  Umask := env.umask
  UID := env.uid
  GID := env.gid
  DirPerms := 0o777
  FilePerms := 0o666
  LinkPerms := 0o666
  ChunkSize := 128 * fsMebi
  ChunkSizeLimit := -1
  ChunkStreams := 0
  CacheMode := .CacheModeOff
  CacheMaxAge := 3600 * timeSecond
  CacheMaxSize := -1
  CacheMinFreeSpace := -1
  CachePollInterval := 60 * timeSecond
  CaseInsensitive := env.goos == "windows" || env.goos == "darwin"
  BlockNormDupes := false
  WriteWait := 1000 * timeMillisecond
  ReadWait := 20 * timeMillisecond
  WriteBack := 5 * timeSecond
  ReadAhead := 0 * fsMebi
  UsedIsSize := false
  FastFingerprint := false
  DiskSpaceTotalSize := -1
  TempFileHandling := TempFileSafe
  TempFileTimeout := 5 * timeMinute }

/-- Variable `Opt` from options.go: the package-level variable, initialized to the
defaults. -/
def Opt (env : SysEnv) : Options := DefaultOpt env

/-- The default value of the `DefaultOpt` field carrying a given config tag,
in the representation the option table uses (Go binds table entries to struct
fields through the `config` struct tags). -/
def fieldDefault (o : Options) : String → Option OptDefault
  | "no_seek" => some (.ofBool o.NoSeek)
  | "no_checksum" => some (.ofBool o.NoChecksum)
  | "read_only" => some (.ofBool o.ReadOnly)
  | "vfs_links" => some (.ofBool o.Links)
  | "no_modtime" => some (.ofBool o.NoModTime)
  | "dir_cache_time" => some (.ofDuration o.DirCacheTime)
  | "vfs_refresh" => some (.ofBool o.Refresh)
  | "poll_interval" => some (.ofDuration o.PollInterval)
  | "umask" => some (.ofFileMode o.Umask)
  | "uid" => some (.ofUInt32 o.UID)
  | "gid" => some (.ofUInt32 o.GID)
  | "dir_perms" => some (.ofFileMode o.DirPerms)
  | "file_perms" => some (.ofFileMode o.FilePerms)
  | "link_perms" => some (.ofFileMode o.LinkPerms)
  | "vfs_read_chunk_size" => some (.ofSize o.ChunkSize)
  | "vfs_read_chunk_size_limit" => some (.ofSize o.ChunkSizeLimit)
  | "vfs_read_chunk_streams" => some (.ofInt o.ChunkStreams)
  | "vfs_cache_mode" => some (.ofCacheMode o.CacheMode)
  | "vfs_cache_max_age" => some (.ofDuration o.CacheMaxAge)
  | "vfs_cache_max_size" => some (.ofSize o.CacheMaxSize)
  | "vfs_cache_min_free_space" => some (.ofSize o.CacheMinFreeSpace)
  | "vfs_cache_poll_interval" => some (.ofDuration o.CachePollInterval)
  | "vfs_case_insensitive" => some (.ofBool o.CaseInsensitive)
  | "vfs_block_norm_dupes" => some (.ofBool o.BlockNormDupes)
  | "vfs_write_wait" => some (.ofDuration o.WriteWait)
  | "vfs_read_wait" => some (.ofDuration o.ReadWait)
  | "vfs_write_back" => some (.ofDuration o.WriteBack)
  | "vfs_read_ahead" => some (.ofSize o.ReadAhead)
  | "vfs_used_is_size" => some (.ofBool o.UsedIsSize)
  | "vfs_fast_fingerprint" => some (.ofBool o.FastFingerprint)
  | "vfs_disk_space_total_size" => some (.ofSize o.DiskSpaceTotalSize)
  | _ => none

end VFSCommon

namespace VFSCommon

/-- C8: every entry of the VFS option table declares exactly the default
value of the identically-tagged field of DefaultOpt, and the package-level
Opt starts out equal to DefaultOpt. -/
theorem OptionsInfo_matches_DefaultOpt (env : SysEnv) :
    (∀ e ∈ OptionsInfo env, fieldDefault (DefaultOpt env) e.Name = some e.Default) ∧
    Opt env = DefaultOpt env := by
  constructor
  · intro e he
    fin_cases he <;> rfl
  · rfl

theorem OptionsInfo_matches_DefaultOpt_witness :
    fieldDefault (DefaultOpt ⟨"linux", 18, 1000, 1000⟩) "dir_cache_time" =
      some (.ofDuration (5 * 60 * timeSecond)) :=
  (OptionsInfo_matches_DefaultOpt ⟨"linux", 18, 1000, 1000⟩).1
    ⟨"dir_cache_time", .ofDuration (5 * 60 * timeSecond)⟩ (by decide)

end VFSCommon

namespace VFSCommon

/-- Modelled from the spec: the slice of the global fs config that
Options.Init consults (only the Links flag). -/
structure FsConfig where
  Links : Bool
deriving DecidableEq, Repr

/-- Constant `os.ModeDir`: bit 31 of a Go os.FileMode. -/
def osModeDir : Nat := 2 ^ 31

/-- Constant `os.ModeSymlink`: bit 27 of a Go os.FileMode. -/
def osModeSymlink : Nat := 2 ^ 27

/-- The 32-bit complement `^u` of a Go uint32. -/
def compl32 (u : Nat) : Nat := (2 ^ 32 - 1) ^^^ u

/-- Method `Options.Init` from vfs/vfscommon/options.go, with the context-carried
global config passed explicitly and the pointer receiver modelled by
returning the updated struct: override Links from the config, mask the three
permission fields with the umask, then restore the directory and symlink
type bits. -/
def Options.Init (opt : Options) (ci : FsConfig) : Options :=
  let opt := if ci.Links then { opt with Links := true } else opt
  let opt := { opt with DirPerms := opt.DirPerms &&& compl32 opt.Umask }
  let opt := { opt with FilePerms := opt.FilePerms &&& compl32 opt.Umask }
  let opt := { opt with LinkPerms := opt.LinkPerms &&& compl32 opt.Umask }
  let opt := { opt with DirPerms := opt.DirPerms ||| osModeDir }
  { opt with LinkPerms := opt.LinkPerms ||| osModeSymlink }

theorem lor_land_self (x t : Nat) : (x ||| t) &&& t = t := by
  apply Nat.eq_of_testBit_eq
  intro i
  rw [Nat.testBit_and, Nat.testBit_or]
  cases t.testBit i <;> simp

theorem masked_no_perm_bits (x u t : Nat)
    (ht : ∀ i, i < 9 → t.testBit i = false) :
    ((x &&& compl32 u) ||| t) &&& u &&& 511 = 0 := by
  apply Nat.eq_of_testBit_eq
  intro i
  rw [Nat.testBit_and, Nat.testBit_and, Nat.testBit_or, Nat.testBit_and]
  by_cases h9 : i < 9
  · rw [ht i h9]
    have hc : (compl32 u).testBit i = !u.testBit i := by
      rw [compl32, Nat.testBit_xor, Nat.testBit_two_pow_sub_one]
      have h32 : i < 32 := by omega
      simp [h32]
    rw [hc]
    cases u.testBit i <;> cases x.testBit i <;> simp
  · have h511 : (511 : Nat).testBit i = false := by
      rw [show (511 : Nat) = 2 ^ 9 - 1 from rfl, Nat.testBit_two_pow_sub_one]
      simp [h9]
    simp [h511]

theorem masked_no_perm_bits_plain (x u : Nat) :
    (x &&& compl32 u) &&& u &&& 511 = 0 := by
  have := masked_no_perm_bits x u 0 (fun i _ => Nat.zero_testBit i)
  simpa using this

/-- C9: after Init the DirPerms field has the directory type bit, LinkPerms
has the symlink type bit, none of DirPerms, FilePerms, LinkPerms keeps a
permission bit (one of the low nine bits) that is set in the umask — the
umask is applied to all three before the type bits are restored — and a set
global Links flag forces the Links option on. -/
theorem Options_Init_spec (opt : Options) (ci : FsConfig) :
    (Options.Init opt ci).DirPerms &&& osModeDir = osModeDir ∧
    (Options.Init opt ci).LinkPerms &&& osModeSymlink = osModeSymlink ∧
    (Options.Init opt ci).DirPerms &&& opt.Umask &&& 511 = 0 ∧
    (Options.Init opt ci).FilePerms &&& opt.Umask &&& 511 = 0 ∧
    (Options.Init opt ci).LinkPerms &&& opt.Umask &&& 511 = 0 ∧
    (ci.Links = true → (Options.Init opt ci).Links = true) := by
  have hdir : ∀ i, i < 9 → osModeDir.testBit i = false := by
    intro i hi
    rw [osModeDir, Nat.testBit_two_pow]
    simp
    omega
  have hsym : ∀ i, i < 9 → osModeSymlink.testBit i = false := by
    intro i hi
    rw [osModeSymlink, Nat.testBit_two_pow]
    simp
    omega
  by_cases hL : ci.Links
  · simp only [Options.Init, hL, if_true]
    exact ⟨lor_land_self _ _, lor_land_self _ _,
      masked_no_perm_bits _ _ _ hdir, masked_no_perm_bits_plain _ _,
      masked_no_perm_bits _ _ _ hsym, fun _ => trivial⟩
  · simp only [Options.Init, hL, if_false]
    exact ⟨lor_land_self _ _, lor_land_self _ _,
      masked_no_perm_bits _ _ _ hdir, masked_no_perm_bits_plain _ _,
      masked_no_perm_bits _ _ _ hsym, fun h => Bool.noConfusion h⟩

theorem Options_Init_spec_witness :
    (Options.Init (DefaultOpt ⟨"linux", 18, 1000, 1000⟩) ⟨true⟩).DirPerms &&&
        osModeDir = osModeDir ∧
    (Options.Init (DefaultOpt ⟨"linux", 18, 1000, 1000⟩) ⟨true⟩).Links = true :=
  ⟨(Options_Init_spec (DefaultOpt ⟨"linux", 18, 1000, 1000⟩) ⟨true⟩).1,
   (Options_Init_spec (DefaultOpt ⟨"linux", 18, 1000, 1000⟩) ⟨true⟩).2.2.2.2.2 rfl⟩

end VFSCommon

namespace VFSCommon

/-- ASCII lower-casing of one character: the fragment of Go strings.ToLower
relevant to the mode strings compared against. -/
def toLowerChar (c : Char) : Char :=
  if 65 ≤ c.toNat ∧ c.toNat ≤ 90 then Char.ofNat (c.toNat + 32) else c

/-- Modelled from Go `strings.ToLower`, restricted to the ASCII simple case
mapping. -/
def stringsToLower (s : String) : String := String.mk (s.data.map toLowerChar)

/-- Method `TempFileHandlingMode.String` from options.go (spelled string here, since
String is the Lean type name): the three named modes print their names, every
other value prints unknown. -/
def TempFileHandlingMode.string (m : TempFileHandlingMode) : String :=
  match m with
  | 0 => "normal"
  | 1 => "safe"
  | 2 => "aggressive"
  | _ => "unknown"

/-- Method `TempFileHandlingMode.Set` from options.go: switch on the lower-cased
argument; unknown strings are rejected with an error naming the original
argument. The Go pointer receiver is modelled by returning the parsed mode. -/
def TempFileHandlingMode.Set (s : String) : Except String TempFileHandlingMode :=
  match stringsToLower s with
  | "normal" => .ok TempFileNormal
  | "safe" => .ok TempFileSafe
  | "aggressive" => .ok TempFileAggressive
  | _ => .error ("unknown temp file handling mode \"" ++ s ++ "\"")

/-- The pure accept table of `TempFileHandlingMode.Set`, keyed by the already
lower-cased string. -/
def parseTempMode (w : String) : Option TempFileHandlingMode :=
  match w with
  | "normal" => some TempFileNormal
  | "safe" => some TempFileSafe
  | "aggressive" => some TempFileAggressive
  | _ => none

theorem toNat_ofNat_small {n : Nat} (h : n < 55296) : (Char.ofNat n).toNat = n := by
  have hv : n.isValidChar := Or.inl h
  rw [Char.ofNat, dif_pos hv]
  rfl

theorem toLowerChar_idem (c : Char) : toLowerChar (toLowerChar c) = toLowerChar c := by
  by_cases h : 65 ≤ c.toNat ∧ c.toNat ≤ 90
  · have h1 : toLowerChar c = Char.ofNat (c.toNat + 32) := if_pos h
    rw [h1]
    have ht : (Char.ofNat (c.toNat + 32)).toNat = c.toNat + 32 :=
      toNat_ofNat_small (by omega)
    unfold toLowerChar
    rw [if_neg (by rw [ht]; omega)]
  · have h1 : toLowerChar c = c := by
      unfold toLowerChar
      rw [if_neg h]
    rw [h1]
    exact h1

theorem stringsToLower_idem (s : String) :
    stringsToLower (stringsToLower s) = stringsToLower s := by
  unfold stringsToLower
  rw [List.map_map]
  have hfun : toLowerChar ∘ toLowerChar = toLowerChar := funext toLowerChar_idem
  rw [hfun]

theorem Set_toOption (s : String) :
    (TempFileHandlingMode.Set s).toOption = parseTempMode (stringsToLower s) := by
  unfold TempFileHandlingMode.Set parseTempMode
  generalize stringsToLower s = w
  split <;> simp_all [Except.toOption]

theorem except_toOption_some {ε α : Type} (x : Except ε α) (v : α) :
    x.toOption = some v ↔ x = .ok v := by
  cases x <;> simp [Except.toOption]

theorem parseTempMode_isSome (w : String) :
    (∃ v, parseTempMode w = some v) ↔
      w ∈ (["normal", "safe", "aggressive"] : List String) := by
  unfold parseTempMode
  split <;> simp_all

end VFSCommon

namespace VFSCommon

/-- C10: the three named temp-file modes round-trip through String and Set;
Set is case-insensitive in its argument (it parses exactly as it parses the
lower-cased string); Set succeeds exactly on strings whose lowercase form is
normal, safe or aggressive; and String of any out-of-range mode value is
unknown, which Set rejects — the round-trip holds only for the three named
modes. -/
theorem tempFileHandling_roundtrip (s : String) (m : TempFileHandlingMode) :
    (TempFileHandlingMode.Set (TempFileHandlingMode.string TempFileNormal) =
        .ok TempFileNormal ∧
     TempFileHandlingMode.Set (TempFileHandlingMode.string TempFileSafe) =
        .ok TempFileSafe ∧
     TempFileHandlingMode.Set (TempFileHandlingMode.string TempFileAggressive) =
        .ok TempFileAggressive) ∧
    (TempFileHandlingMode.Set s).toOption =
      (TempFileHandlingMode.Set (stringsToLower s)).toOption ∧
    ((∃ v, TempFileHandlingMode.Set s = .ok v) ↔
      stringsToLower s ∈ (["normal", "safe", "aggressive"] : List String)) ∧
    (m ≠ TempFileNormal → m ≠ TempFileSafe → m ≠ TempFileAggressive →
      TempFileHandlingMode.string m = "unknown" ∧
      ∃ e, TempFileHandlingMode.Set (TempFileHandlingMode.string m) = .error e) := by
  refine ⟨⟨rfl, rfl, rfl⟩, ?_, ?_, ?_⟩
  · rw [Set_toOption, Set_toOption, stringsToLower_idem]
  · rw [show (∃ v, TempFileHandlingMode.Set s = .ok v) ↔
        (∃ v, (TempFileHandlingMode.Set s).toOption = some v) from
      exists_congr (fun v => (except_toOption_some _ v).symm)]
    rw [Set_toOption]
    exact parseTempMode_isSome _
  · intro h0 h1 h2
    have hs : TempFileHandlingMode.string m = "unknown" := by
      unfold TempFileHandlingMode.string
      split <;> simp_all [TempFileNormal, TempFileSafe, TempFileAggressive]
    refine ⟨hs, ?_⟩
    rw [hs]
    exact ⟨"unknown temp file handling mode \"" ++ "unknown" ++ "\"", rfl⟩

theorem tempFileHandling_roundtrip_witness :
    TempFileHandlingMode.Set (TempFileHandlingMode.string TempFileSafe) =
      .ok TempFileSafe ∧
    TempFileHandlingMode.string 7 = "unknown" ∧
    (∃ v, TempFileHandlingMode.Set "NORMAL" = .ok v) :=
  ⟨(tempFileHandling_roundtrip "NORMAL" 7).1.2.1,
   ((tempFileHandling_roundtrip "NORMAL" 7).2.2.2 (by decide) (by decide) (by decide)).1,
   ((tempFileHandling_roundtrip "NORMAL" 7).2.2.1).2 (by decide)⟩

end VFSCommon
